import Mathlib

/-!
Shallow embedding of the vocabulary-list core of `ins4.py`:
the `OmegaWortschatz` dictionary with its three-tier lookup
(`finde_bedeutung`, `_remove_accents`) and the line parser
`VokabelPDFParser` (`_parse_text`, `parse_pdf`).
Python strings are modelled as Lean `String` (lists of characters);
the character-level operations used by the source (`strip`,
`split`, the Greek-range regex, the accent table) are defined below.
-/

namespace Vorentlastung

/-- One row of the vocabulary list: the dataclass `VokabelEintrag` of `ins4.py`. -/
structure VokabelEintrag where
  main_num : Nat
  sub_num : Nat
  griechisch : String
  stammformen : String
  bedeutungen : List String
  gefunden : Bool
  original_zeile : String
deriving DecidableEq, Repr

/-- Python `str.strip()` on a character list: drop whitespace at both ends. -/
def stripChars (s : List Char) : List Char :=
  ((s.dropWhile Char.isWhitespace).reverse.dropWhile Char.isWhitespace).reverse

/-- Python `str.strip()`. -/
def pyStrip (s : String) : String := ⟨stripChars s.data⟩

/-- Python `str.split(sep)` for a one-character separator (keeps empty pieces). -/
def pySplitOn (sep : Char) (s : String) : List String :=
  (s.data.splitOn sep).map fun l => ⟨l⟩

set_option maxRecDepth 2000000
set_option maxHeartbeats 4000000

/-- The static dictionary `vocab_dict` of `OmegaWortschatz._build_dictionary`,
as an association list in the insertion order of the source: each entry is
`(key, (gloss text, principal parts, note))`. -/
def vocab_dict : List (String × String × String × String) := [
  ("ἀγαθός", "gut, anständig", "ἀγαθός, ή, όν", "3 Steigerungsreihen: 1) ἀμείνων/ἄμεινον, ἄριστος; 2) κρείττων/κρεῖττον, κράτιστος; 3) βελτίων/βέλτιον, βέλτιστος. τὸ ἀγαθόν - das Gute; τὰ ἀγαθά - die Güter"),
  ("ἀγανακτέω", "sich ärgern, unwillig sein", "ἀγανακτέω", ""),
  ("ἀγγέλλω", "melden, berichten", "ἀγγέλλω, ἀγγελῶ, ἤγγειλα, ἤγγελκα, ἤγγελμαι, ἤγγελθην", ""),
  ("ἄγγελος", "Bote", "ἄγγελος, ου, ὁ", ""),
  ("ἀγνοέω", "nicht wissen, nicht kennen", "ἀγνοέω", ""),
  ("ἀγορά", "Marktplatz, Versammlung", "ἀγορά, ᾶς, ἡ", ""),
  ("ἀγρός", "Acker, Feld", "ἀγρός, οῦ, ὁ", ""),
  ("ἄγω", "führen, treiben; ziehen, marschieren", "ἄγω, ἄξω, ἤγαγον, ἦχα, ἤγμαι, ἤχθην", ""),
  ("ἀγών", "Wettkampf, Kampf; Prozess", "ἀγών, ῶνος, ὁ", ""),
  ("ἀδελφός", "Bruder", "ἀδελφός, οῦ, ὁ", ""),
  ("ἀδικέω", "Unrecht tun", "ἀδικέω, ἀδικήσω, ἠδίκησα, ἠδίκηκα, ἠδίκημαι, ἠδικήθην", ""),
  ("ἀδικία", "Unrecht, Ungerechtigkeit", "ἀδικία, ας, ἡ", ""),
  ("ἄδικος", "ungerecht, unrecht", "ἄδικος, ον", ""),
  ("ἀδύνατος", "unfähig, machtlos; unmöglich", "ἀδύνατος, ον", ""),
  ("ᾄδω", "singen, besingen", "ᾄδω", ""),
  ("ἀεί", "immer; jeweils", "ἀεί", ""),
  ("ἀθάνατος", "unsterblich", "ἀθάνατος, ον", ""),
  ("ἄθλιος", "elend, unglücklich", "ἄθλιος, α, ον", ""),
  ("ἄθλος", "Wettkampf; Mühe", "ἄθλος, ου, ὁ", ""),
  ("αἰδέομαι", "scheuen, Ehrfurcht haben; respektieren", "αἰδέομαι, αἰδέσομαι, ἠδέσθην", ""),
  ("αἰδώς", "Scham; Ehrfurcht", "αἰδώς, όος, ἡ", ""),
  ("αἱρέω", "nehmen, ergreifen; zu Fall bringen; M. sich nehmen, wählen", "αἱρέω, αἱρήσω, εἷλον, ᾕρηκα, ᾕρημαι, ἡρέθην", ""),
  ("αἴρω", "hochheben, aufheben; absegeln, aufbrechen", "αἴρω, ἀρῶ, ἦρα, ἦρκα, ἦρμαι, ἦρθην", ""),
  ("αἰσθάνομαι", "wahrnehmen, merken", "αἰσθάνομαι, αἰσθήσομαι, ᾐσθόμην, ᾔσθημαι", ""),
  ("αἰσχρός", "hässlich; schändlich", "αἰσχρός, ά, όν", ""),
  ("αἰσχύνομαι", "sich schämen; respektieren", "αἰσχύνομαι, αἰσχυνοῦμαι, ᾐσχύνθην, ᾔσχυμμαι", ""),
  ("αἰτέω", "fordern, verlangen", "αἰτέω, αἰτήσω, ᾔτησα, ᾔτηκα, ᾔτημαι, ᾐτήθην", ""),
  ("αἰτία", "Grund, Ursache; Schuld", "αἰτία, ας, ἡ", ""),
  ("αἴτιος", "schuld, schuldig; Urheber", "αἴτιος, α, ον", ""),
  ("ἀκοή", "Gehör; Gerücht", "ἀκοή, ῆς, ἡ", ""),
  ("ἀκολουθέω", "folgen", "ἀκολουθέω", ""),
  ("ἀκούω", "hören", "ἀκούω, ἀκούσομαι, ἤκουσα, ἀκήκοα, ἠκούσθην", ""),
  ("ἀκριβής", "sorgfältig, genau", "ἀκριβής, ές", ""),
  ("ἄκων", "unfreiwillig, ungern", "ἄκων, ἄκουσα, ἄκον", ""),
  ("ἀλήθεια", "Wahrheit", "ἀλήθεια, ας, ἡ", ""),
  ("ἀληθής", "wahr, wahrhaftig", "ἀληθής, ές", ""),
  ("ἀλίσκομαι", "gefangen werden; überführt werden", "ἀλίσκομαι, ἁλώσομαι, ἑάλων, ἑάλωκα", ""),
  ("ἀλλά", "aber; sondern", "ἀλλά", ""),
  ("ἀλλήλων", "einander, gegenseitig", "ἀλλήλων, -οις/-αις, -ους/-ας/-α", ""),
  ("ἄλλος", "ein anderer", "ἄλλος, η, ο", ""),
  ("ἅμα", "zugleich; zusammen mit; während", "ἅμα", ""),
  ("ἀμαθής", "ungebildet, unwissend", "ἀμαθής, ές", ""),
  ("ἁμαρτάνω", "verfehlen, falsch machen; sündigen", "ἁμαρτάνω, ἁμαρτήσομαι, ἥμαρτον, ἡμάρτηκα, ἡμάρτημαι, ἡμαρτήθην", ""),
  ("ἁμαρτία", "Fehler, Verfehlung", "ἁμαρτία, ας, ἡ", ""),
  ("ἀμελέω", "sich nicht kümmern; vernachlässigen", "ἀμελέω", ""),
  ("ἀμύνω", "abwehren, fernhalten; helfen; M. sich verteidigen", "ἀμύνω, ἀμυνῶ, ἤμυνα", ""),
  ("ἀμφί", "um...herum", "ἀμφί", ""),
  ("ἀμφισβητέω", "bestreiten, sich streiten; behaupten", "ἀμφισβητέω", ""),
  ("ἀμφότεροι", "beide", "ἀμφότεροι, αι, α", ""),
  ("ἄν", "Modalpartikel", "ἄν", "Potentialis (Optativ), Irrealis (Ind. Impf./Aor.), Iterativ/Eventualis (Konjunktiv)"),
  ("ἀνά", "über...hin; hinauf; während", "ἀνά", ""),
  ("ἀναγιγνώσκω", "lesen, vorlesen", "ἀναγιγνώσκω", ""),
  ("ἀναγκάζω", "zwingen", "ἀναγκάζω", ""),
  ("ἀναγκαῖος", "notwendig", "ἀναγκαῖος, α, ον", ""),
  ("ἀνάγκη", "Notwendigkeit, Zwang", "ἀνάγκη, ης, ἡ", ""),
  ("ἀναλαμβάνω", "aufnehmen", "ἀναλαμβάνω", ""),
  ("ἀναμιμνήσκω", "erinnern; M. sich erinnern", "ἀναμιμνήσκω", ""),
  ("ἀνδρεία", "Tapferkeit", "ἀνδρεία, ας, ἡ", ""),
  ("ἀνδρεῖος", "tapfer", "ἀνδρεῖος, α, ον", ""),
  ("ἄνευ", "ohne", "ἄνευ", ""),
  ("ἀνήρ", "Mann", "ἀνήρ, ἀνδρός, ὁ", ""),
  ("ἀνθρώπειος", "menschlich", "ἀνθρώπειος, α, ον", ""),
  ("ἄνθρωπος", "Mensch", "ἄνθρωπος, ου, ὁ", ""),
  ("ἀνίημι", "loslassen; nachlassen", "ἀνίημι", ""),
  ("ἀνίστημι", "aufstellen; M. aufstehen, sich erheben", "ἀνίστημι", ""),
  ("ἀνόητος", "unvernünftig", "ἀνόητος, ον", ""),
  ("ἀνόσιος", "gottlos; unrecht", "ἀνόσιος, α, ον", ""),
  ("ἀντί", "anstelle von", "ἀντί", ""),
  ("ἄξιος", "würdig, wert; angemessen, richtig", "ἄξιος, ία, ιον", ""),
  ("ἀξιόω", "für würdig halten; fordern; glauben", "ἀξιόω, ἀξιώσω, ἠξίωσα, ἠξίωκα, ἠξίωμαι, ἠξιώθην", ""),
  ("ἀπαλλάττω", "entfernen; befreien", "ἀπαλλάττω, ἀπαλλάξω, ἀπήλλαξα, ἀπήλλαχα, ἀπήλλαγμαι, ἀπηλλάχθην", ""),
  ("ἅπας", "all, ganz, jeder", "ἅπας, ἅπασα, ἅπαν", ""),
  ("ἄπειμι", "weggehen", "ἄπειμι", ""),
  ("ἀπιστέω", "nicht glauben; misstrauen", "ἀπιστέω", ""),
  ("ἀπό", "von, seit", "ἀπό", ""),
  ("ἀποδείκνυμι", "zeigen, darlegen, beweisen", "ἀποδείκνυμι", ""),
  ("ἀποδέχομαι", "annehmen; aufnehmen", "ἀποδέχομαι", ""),
  ("ἀποδιδράσκω", "weglaufen, entlaufen", "ἀποδιδράσκω", ""),
  ("ἀποθνῄσκω", "sterben; tot sein", "ἀποθνῄσκω, ἀποθανοῦμαι, ἀπέθανον, τέθνηκα", ""),
  ("ἀποκρίνομαι", "antworten", "ἀποκρίνομαι, ἀποκρινοῦμαι, ἀπεκρινάμην, ἀπεκρίθην", ""),
  ("ἀπόκρισις", "Antwort", "ἀπόκρισις, εως, ἡ", ""),
  ("ἀποκτείνω", "töten", "ἀποκτείνω, ἀποκτενῶ, ἀπέκτεινα, ἀπέκτονα", ""),
  ("ἀπόλλυμι", "zugrunde richten; verlieren", "ἀπόλλυμι, ἀπολῶ, ἀπώλεσα", "Aor. M. ἀπωλόμην, Perf. ἀπολώλεκα/ἀπόλωλα"),
  ("ἀπολογέομαι", "sich verteidigen", "ἀπολογέομαι", ""),
  ("ἀπορία", "Ratlosigkeit; Mangel", "ἀπορία, ας, ἡ", ""),
  ("ἀποφαίνω", "zeigen, darlegen", "ἀποφαίνω", ""),
  ("ἅπτομαι", "berühren, anfassen; sich befassen mit", "ἅπτομαι, ἅψομαι, ἡψάμην, ἧμμαι, ἥφθην", ""),
  ("ἄρα", "also, folglich", "ἄρα", ""),
  ("ἆρα", "Fragepartikel", "ἆρα", ""),
  ("ἀργύριον", "Silber, Geld", "ἀργύριον, ου, τό", ""),
  ("ἀρετή", "Tüchtigkeit, Tugend; Tapferkeit; Leistung", "ἀρετή, ῆς, ἡ", ""),
  ("ἀριθμός", "Zahl", "ἀριθμός, οῦ, ὁ", ""),
  ("ἄριστος", "der beste, tüchtigste", "ἄριστος, η, ον", "Superlativ von ἀγαθός"),
  ("ἀρκέω", "stark genug sein, genügen", "ἀρκέω", ""),
  ("ἀρχαῖος", "alt, früher", "ἀρχαῖος, α, ον", ""),
  ("ἀρχή", "Anfang; Herrschaft, Reich; Amt", "ἀρχή, ῆς, ἡ", ""),
  ("ἄρχομαι", "anfangen", "ἄρχομαι, ἄρξομαι, ἠρξάμην", ""),
  ("ἄρχω", "herrschen; den Anfang machen", "ἄρχω, ἄρξω, ἦρξα, ἦργμαι, ἦρχθην", ""),
  ("ἄρχων", "Herrscher, Anführer; Archont", "ἄρχων, οντος, ὁ", ""),
  ("ἀσθενής", "schwach, kraftlos; krank", "ἀσθενής, ές", ""),
  ("ἀσκέω", "üben, ausüben", "ἀσκέω", ""),
  ("ἄστρον", "Stern", "ἄστρον, ου, τό", ""),
  ("ἄτε", "da, weil", "ἄτε", "objektiver Grund im Unterschied zu ὡς + Part."),
  ("ἄτοπος", "unpassend, seltsam", "ἄτοπος, ον", ""),
  ("αὖ", "wieder; wiederum", "αὖ, αὖθις", ""),
  ("αὐτίκα", "sofort", "αὐτίκα", ""),
  ("αὐτός", "selbst; derselbe", "αὐτός, ή, ό", "Personalpronomen der 3.Ps."),
  ("αὐτοῦ", "ebendort", "αὐτοῦ", ""),
  ("ἀφαιρέω", "wegnehmen", "ἀφαιρέω, ἀφαιρήσω, ἀφεῖλον, ἀφήρηκα, ἀφήρημαι, ἀφηρέθην", ""),
  ("ἀφίημι", "losschicken; freilassen", "ἀφίημι, ἀφήσω, ἀφῆκα, ἀφεῖκα, ἀφεῖμαι, ἀφείθην", ""),
  ("ἀφικνέομαι", "ankommen", "ἀφικνέομαι, ἀφίξομαι, ἀφικόμην, ἀφῖγμαι", ""),
  ("ἄφρων", "unvernünftig", "ἄφρων, ον", ""),
  ("ἄχθομαι", "unwillig sein, sich ärgern", "ἄχθομαι", ""),
  ("βαίνω", "gehen", "βαίνω, βήσομαι, ἔβην, βέβηκα", ""),
  ("βάλλω", "werfen; treffen", "βάλλω, βαλῶ, ἔβαλον, βέβληκα, βέβλημαι, ἐβλήθην", ""),
  ("βάρβαρος", "nichtgriechisch", "βάρβαρος, ον", ""),
  ("βασιλεύς", "König", "βασιλεύς, έως, ὁ", ""),
  ("βέβαιος", "fest, beständig, zuverlässig", "βέβαιος, α, ον", ""),
  ("βελτίων", "besser", "βελτίων, βέλτιον", "Komp. zu ἀγαθός, Superl. βέλτιστος"),
  ("βιάζομαι", "zwingen, überwältigen", "βιάζομαι", ""),
  ("βιβλίον", "Buch", "βιβλίον, ου, τό", ""),
  ("βίος", "Leben; Lebensunterhalt", "βίος, ου, ὁ", ""),
  ("βιόω", "leben", "βιόω, βιώσομαι, ἐβίων, βεβίωκα", ""),
  ("βλάπτω", "schädigen, schaden", "βλάπτω, βλάψω, ἔβλαψα, βέβλαφα, βέβλαμμαι, ἐβλάβην", ""),
  ("βλέπω", "blicken, sehen", "βλέπω, βλέψομαι, ἔβλεψα", ""),
  ("βοηθέω", "helfen", "βοηθέω, βοηθήσω, ἐβοήθησα, βεβοήθηκα", ""),
  ("βουλεύω", "beraten, überlegen; beschließen", "βουλεύω, βουλεύσω, ἐβούλευσα, βεβούλευκα, βεβούλευμαι, ἐβουλεύθην", ""),
  ("βουλή", "Plan, Rat, Absicht; Ratsversammlung", "βουλή, ῆς, ἡ", ""),
  ("βούλομαι", "wollen", "βούλομαι, βουλήσομαι, βεβούλημαι, ἐβουλήθην", ""),
  ("βοῦς", "Rind, Kuh", "βοῦς, βοός, ὁ/ἡ", ""),
  ("βροτός", "sterblich", "βροτός, ή, όν", ""),
  ("γάμος", "Hochzeit, Ehe", "γάμος, ου, ὁ", ""),
  ("γάρ", "denn, nämlich", "γάρ", ""),
  ("γε", "jedenfalls; wenigstens", "γε", "häufig unübersetzt"),
  ("γελάω", "lachen; auslachen", "γελάω, γελάσομαι, ἐγέλασα", ""),
  ("γενναῖος", "edel, adlig; tüchtig; echt", "γενναῖος, α, ον", ""),
  ("γένος", "Geschlecht, Gattung, Abstammung", "γένος, ους, τό", ""),
  ("γέρων", "alter Mann, Greis", "γέρων, οντος, ὁ", ""),
  ("γεωργός", "Bauer", "γεωργός, οῦ, ὁ", ""),
  ("γῆ", "Erde; Land", "γῆ, γῆς, ἡ", ""),
  ("γίγνομαι", "werden; entstehen; geschehen", "γίγνομαι, γενήσομαι, ἐγενόμην, γέγονα/γεγένημαι", ""),
  ("γιγνώσκω", "erkennen, kennen", "γιγνώσκω, γνώσομαι, ἔγνων, ἔγνωκα, ἔγνωσμαι, ἐγνώσθην", ""),
  ("γλυκύς", "süß, lieb", "γλυκύς, εῖα, ύ", ""),
  ("γλῶττα", "Zunge; Sprache", "γλῶττα, ης, ἡ", ""),
  ("γνώμη", "Verstand, Einsicht; Gesinnung, Meinung", "γνώμη, ης, ἡ", ""),
  ("γοῦν", "jedenfalls, wenigstens", "γοῦν", ""),
  ("γράμμα", "Buchstabe; Schrift; Wissenschaft", "γράμμα, ατος, τό", "τὰ γράμματα - Literatur, Wissenschaften"),
  ("γράφω", "schreiben", "γράφω, γράψω, ἔγραψα, γέγραφα, γέγραμμαι, ἐγράφην", "γραφὴν γράφομαι - anklagen"),
  ("γυμνάζω", "üben, trainieren", "γυμνάζω", ""),
  ("γυμνός", "nackt; unbewaffnet", "γυμνός, ή, όν", ""),
  ("γυνή", "Frau", "γυνή, γυναικός, ἡ", ""),
  ("δαιμόνιον", "göttliches Wesen, göttliche Stimme", "δαιμόνιον, ου, τό", ""),
  ("δαίμων", "Gottheit; Götterwille", "δαίμων, ονος, ὁ/ἡ", ""),
  ("δέ", "aber; und", "δέ", ""),
  ("δέδοικα", "fürchten", "δέδοικα/δέδια, δείσομαι, ἔδεισα", "Perfekt mit Präsensbedeutung"),
  ("δεῖ", "es ist nötig; man muss", "δεῖ, δεήσει, ἔδει", "verneint: man darf nicht"),
  ("δείκνυμι", "zeigen; nachweisen", "δείκνυμι, δείξω, ἔδειξα, δέδειχα, δέδειγμαι, ἐδείχθην", ""),
  ("δειλός", "furchtsam, feige; elend", "δειλός, ή, όν", ""),
  ("δεινός", "gewaltig; furchtbar; tüchtig", "δεινός, ή, όν", ""),
  ("δεῖπνον", "Mahlzeit, Abendessen", "δεῖπνον, ου, τό", ""),
  ("δέκα", "zehn", "δέκα", ""),
  ("δένδρον", "Baum", "δένδρον, ου, τό", ""),
  ("δέομαι", "bedürfen, nötig haben; bitten", "δέομαι, δεήσομαι, ἐδεήθην", "δέομαί τινος τί - jdn. um etw. bitten"),
  ("δέον", "da es nötig ist", "δέον", "τὸ δέον/τὰ δέοντα - das Nötige"),
  ("δεσπότης", "Herr, Herrscher", "δεσπότης, ου, ὁ", ""),
  ("δεῦρο", "hierher", "δεῦρο", ""),
  ("δεύτερος", "der zweite", "δεύτερος, α, ον", ""),
  ("δέχομαι", "annehmen, aufnehmen", "δέχομαι, δέξομαι, ἐδεξάμην, δέδεγμαι, ἐδέχθην", ""),
  ("δέω", "fesseln, binden", "δέω", ""),
  ("δή", "also, wirklich", "δή", "oft zur Verstärkung"),
  ("δῆλος", "offensichtlich, klar", "δῆλος, η, ον", ""),
  ("δηλόω", "klar machen, zeigen", "δηλόω, δηλώσω, ἐδήλωσα, δεδήλωκα, ἐδηλώθην", ""),
  ("δημιουργός", "Handwerker; Schöpfer", "δημιουργός, οῦ, ὁ", ""),
  ("δῆμος", "Gemeinde; Volk", "δῆμος, ου, ὁ", ""),
  ("δημόσιος", "staatlich, öffentlich", "δημόσιος, α, ον", "δημοσίᾳ - öffentlich, Ggs. ἰδίᾳ"),
  ("δήπου", "doch wohl, sicherlich", "δήπου", ""),
  ("δῆτα", "bestimmt, durchaus", "δῆτα", ""),
  ("διά", "durch (+Gen.); wegen (+Akk.)", "διά", "διὰ τί - weshalb; διὰ τοῦτο - deshalb"),
  ("διαβάλλω", "verleumden", "διαβάλλω", ""),
  ("διαλέγομαι", "sich unterhalten", "διαλέγομαι, διαλέξομαι, διελέχθην, διείλεγμαι", ""),
  ("διανοέομαι", "denken, beabsichtigen", "διανοέομαι", ""),
  ("διαφέρω", "sich unterscheiden", "διαφέρω, διοίσω, διήνεγκον, διενήνοχα, διενήνεγμαι", "διαφέρει - es macht einen Unterschied"),
  ("διαφθείρω", "verderben, vernichten", "διαφθείρω, διαφθερῶ, διέφθειρα, διέφθαρκα, διέφθαρμαι, διεφθάρην", ""),
  ("διδάσκαλος", "Lehrer", "διδάσκαλος, ου, ὁ", ""),
  ("διδάσκω", "lehren, unterrichten", "διδάσκω, διδάξω, ἐδίδαξα, δεδίδαχα, δεδίδαγμαι, ἐδιδάχθην", ""),
  ("δίδωμι", "geben", "δίδωμι, δώσω, ἔδωκα, δέδωκα, δέδομαι, ἐδόθην", "δίκην δίδωμι - bestraft werden"),
  ("διέρχομαι", "hindurchgehen; erörtern", "διέρχομαι", ""),
  ("δικάζω", "Recht sprechen, urteilen", "δικάζω", "δικάζομαι - prozessieren"),
  ("δίκαιος", "gerecht, richtig", "δίκαιος, ία, ιον", "δικαιός εἰμι + Inf. - berechtigt sein"),
  ("δικαιοσύνη", "Gerechtigkeit", "δικαιοσύνη, ης, ἡ", ""),
  ("δικαιόω", "für recht halten, fordern", "δικαιόω", ""),
  ("δικαστήριον", "Gericht", "δικαστήριον, ου, τό", ""),
  ("δικαστής", "Richter", "δικαστής, οῦ, ὁ", ""),
  ("δίκη", "Recht, Gerechtigkeit; Prozess, Strafe", "δίκη, ης, ἡ", "δίκην δίδωμι - bestraft werden"),
  ("διό", "deshalb", "διό", ""),
  ("διώκω", "verfolgen; anklagen", "διώκω, διώξομαι, ἐδίωξα, δεδίωχα, δεδίωγμαι, ἐδιώχθην", ""),
  ("δοκέω", "scheinen; meinen, glauben", "δοκέω, δόξω, ἔδοξα", "δοκεῖ μοι - ich beschließe"),
  ("δόξα", "Meinung; Schein; Ruf", "δόξα, ης, ἡ", ""),
  ("δοξάζω", "meinen", "δοξάζω", ""),
  ("δοῦλος", "Sklave, Knecht", "δοῦλος, ου, ὁ", ""),
  ("δράω", "tun, handeln", "δράω, δράσω, ἔδρασα, δέδρακα, δέδραμαι, ἐδράσθην", ""),
  ("δύναμαι", "können, vermögen; bedeuten", "δύναμαι, δυνήσομαι, ἐδυνήθην, δεδύνημαι", ""),
  ("δύναμις", "Kraft, Macht, Fähigkeit", "δύναμις, εως, ἡ", ""),
  ("δυνατός", "fähig; mächtig; möglich", "δυνατός, ή, όν", ""),
  ("δύο", "zwei", "δύο", ""),
  ("δῶρον", "Geschenk, Gabe", "δῶρον, ου, τό", ""),
  ("ἐάν", "wenn; immer wenn", "ἐάν", ""),
  ("ἑαυτοῦ", "seiner/ihrer selbst, sich", "ἑαυτοῦ, ἑαυτῆς, ἑαυτοῦ", "Reflexivpronomen der 3.Ps."),
  ("ἐάω", "lassen, zulassen", "ἐάω, ἐάσω, εἴασα", ""),
  ("ἐγώ", "ich", "ἐγώ, ἐμοῦ", ""),
  ("ἐθέλω", "wollen; bereit sein", "ἐθέλω, ἐθελήσω, ἠθέλησα, ἠθέληκα", ""),
  ("ἔθνος", "Volk, Volksstamm", "ἔθνος, ους, τό", ""),
  ("ἔθος", "Sitte; Gewohnheit", "ἔθος, ους, τό", ""),
  ("εἰ", "wenn, falls; ob", "εἰ", ""),
  ("εἰ γάρ", "wenn doch, hoffentlich", "εἰ γάρ", ""),
  ("εἶδος", "Gestalt, Aussehen; Idee", "εἶδος, ους, τό", ""),
  ("εἴδωλον", "Bild, Götterbild", "εἴδωλον, ου, τό", ""),
  ("εἶεν", "nun gut", "εἶεν", ""),
  ("εἶθε", "wenn doch, hoffentlich", "εἶθε", ""),
  ("εἰκός", "Wahrscheinlichkeit; Angemessenheit", "εἰκός, ότος, τό", "εἰκός ἐστι - es ist wahrscheinlich/angemessen"),
  ("εἰκών", "Bild; Statue", "εἰκών, όνος, ἡ", ""),
  ("εἰμί", "sein", "εἰμί, ἔσομαι, ἦν", "ἔστιν - es gibt, es ist möglich"),
  ("εἶμι", "gehen", "εἶμι", "Futur zu ἔρχομαι"),
  ("εἶπερ", "wenn wirklich", "εἶπερ", ""),
  ("εἰρήνη", "Friede", "εἰρήνη, ης, ἡ", ""),
  ("εἷς", "einer", "εἷς, μία, ἕν", ""),
  ("εἰς", "in...hinein; zu...hin", "εἰς", ""),
  ("εἶτα", "da, dann; ferner", "εἶτα", ""),
  ("εἴτε...εἴτε", "sei es... sei es", "εἴτε...εἴτε", ""),
  ("εἴωθα", "gewohnt sein", "εἴωθα", "Perfekt mit Präsensbedeutung"),
  ("ἐκ", "aus; seit; infolge von", "ἐκ, ἐξ", ""),
  ("ἕκαστος", "jeder", "ἕκαστος, ἑκάστη, ἕκαστον", ""),
  ("ἑκάστοτε", "jedesmal", "ἑκάστοτε", ""),
  ("ἑκάτερος", "jeder von beiden", "ἑκάτερος, ἑκατέρα, ἑκάτερον", ""),
  ("ἑκατόν", "hundert", "ἑκατόν", ""),
  ("ἐκβάλλω", "hinauswerfen, vertreiben", "ἐκβάλλω, ἐκβαλῶ, ἐξέβαλον, ἐκβέβληκα, ἐκβέβλημαι, ἐξεβλήθην", ""),
  ("ἐκεῖ", "dort", "ἐκεῖ", ""),
  ("ἐκεῖνος", "jener", "ἐκεῖνος, η, ο", ""),
  ("ἐκκλησία", "Volksversammlung; Kirche", "ἐκκλησία, ας, ἡ", ""),
  ("ἐκπλήττω", "erschrecken", "ἐκπλήττω", ""),
  ("ἑκών", "freiwillig, willentlich", "ἑκών, ἑκοῦσα, ἑκόν", ""),
  ("ἐλάττων", "kleiner, geringer", "ἐλάττων, ον", "Komp. zu μικρός/ὀλίγος"),
  ("ἐλαύνω", "treiben, marschieren", "ἐλαύνω, ἐλῶ, ἤλασα, ἐλήλακα, ἐλήλαμαι, ἠλάθην", ""),
  ("ἐλέγχω", "prüfen; widerlegen", "ἐλέγχω", ""),
  ("ἐλευθερία", "Freiheit", "ἐλευθερία, ας, ἡ", ""),
  ("ἐλεύθερος", "frei", "ἐλεύθερος, α, ον", ""),
  ("ἐλπίζω", "hoffen, erwarten", "ἐλπίζω", ""),
  ("ἐλπίς", "Hoffnung, Erwartung", "ἐλπίς, ίδος, ἡ", ""),
  ("ἐμαυτοῦ", "meiner selbst", "ἐμαυτοῦ, ῆς, οῦ", "Reflexivpronomen 1.Ps."),
  ("ἐμός", "mein", "ἐμός, ή, όν", ""),
  ("ἔμπειρος", "erfahren, kundig", "ἔμπειρος, ον", ""),
  ("ἐμπίπτω", "hineinfallen, geraten in", "ἐμπίπτω", ""),
  ("ἔμπροσθεν", "vorne; früher", "ἔμπροσθεν", ""),
  ("ἐν", "in, an, auf, bei; während", "ἐν", ""),
  ("ἐν ᾧ", "während", "ἐν ᾧ", ""),
  ("ἐναντίος", "gegenüber; entgegengesetzt", "ἐναντίος, α, ον", "ὁ ἐναντίος - Gegner"),
  ("ἔνεκα", "wegen; um...willen", "ἔνεκα", ""),
  ("ἔνθα", "da, dort", "ἔνθα", ""),
  ("ἐνθάδε", "hier", "ἐνθάδε", ""),
  ("ἐνθυμέομαι", "bedenken, überlegen", "ἐνθυμέομαι", ""),
  ("ἔνιοι", "einige", "ἔνιοι, αι, α", ""),
  ("ἐνίοτε", "manchmal", "ἐνίοτε", ""),
  ("ἐννοέω", "bedenken; begreifen", "ἐννοέω", ""),
  ("ἐνταῦθα", "hier; dort", "ἐνταῦθα", ""),
  ("ἐντυγχάνω", "treffen auf, geraten in", "ἐντυγχάνω, ἐντεύξομαι, ἐνέτυχον, ἐντετύχηκα", ""),
  ("ἕξ", "sechs", "ἕξ", ""),
  ("ἐξ οὗ", "seitdem", "ἐξ οὗ", ""),
  ("ἔξεστι", "es ist möglich; es ist erlaubt", "ἔξεστι", ""),
  ("ἐξετάζω", "untersuchen, prüfen", "ἐξετάζω", ""),
  ("ἔοικα", "scheinen; gleichen", "ἔοικα", "Perfekt mit Präsensbedeutung"),
  ("ἐπαγγέλλομαι", "ankündigen; angeben", "ἐπαγγέλλομαι", ""),
  ("ἐπαινέω", "loben", "ἐπαινέω", ""),
  ("ἔπαινος", "Lob", "ἔπαινος, ου, ὁ", ""),
  ("ἐπεί", "als, nachdem; da, weil", "ἐπεί", ""),
  ("ἐπειδή", "als, nachdem; da, weil", "ἐπειδή", ""),
  ("ἔπειμι", "hingehen; angreifen", "ἔπειμι", ""),
  ("ἔπειτα", "dann, darauf", "ἔπειτα", ""),
  ("ἐπί", "auf (+Gen.); bei (+Dat.); zu (+Akk.)", "ἐπί", ""),
  ("ἐπιβουλεύω", "einen Anschlag planen", "ἐπιβουλεύω", ""),
  ("ἐπιδείκνυμι", "vorzeigen, zur Schau stellen", "ἐπιδείκνυμι", ""),
  ("ἐπιθυμέω", "begehren, wollen", "ἐπιθυμέω", ""),
  ("ἐπιθυμία", "Begierde, Verlangen", "ἐπιθυμία, ας, ἡ", ""),
  ("ἐπιλανθάνομαι", "vergessen", "ἐπιλανθάνομαι, ἐπιλήσομαι, ἐπελαθόμην, ἐπιλέλησμαι", ""),
  ("ἐπιμέλεια", "Sorge, Fürsorge", "ἐπιμέλεια, ας, ἡ", ""),
  ("ἐπιμελέομαι", "sich kümmern", "ἐπιμελέομαι", ""),
  ("ἐπίσταμαι", "verstehen; wissen; können", "ἐπίσταμαι", ""),
  ("ἐπιστήμη", "Wissen, Wissenschaft", "ἐπιστήμη, ης, ἡ", ""),
  ("ἐπιστολή", "Brief", "ἐπιστολή, ῆς, ἡ", ""),
  ("ἐπιτήδειος", "geeignet, passend", "ἐπιτήδειος, ον", "τὰ ἐπιτήδεια - Lebensmittel"),
  ("ἐπιτίθημι", "darauflegen; zufügen", "ἐπιτίθημι", ""),
  ("ἐπιτρέπω", "überlassen; gestatten", "ἐπιτρέπω", ""),
  ("ἐπιχειρέω", "versuchen; angreifen", "ἐπιχειρέω", ""),
  ("ἕπομαι", "folgen", "ἕπομαι, ἕψομαι, ἑσπόμην", ""),
  ("ἔπος", "Wort", "ἔπος, ους, τό", ""),
  ("ἐράω", "lieben, begehren", "ἐράω", ""),
  ("ἐργάζομαι", "arbeiten, tun", "ἐργάζομαι, ἐργάσομαι, εἰργασάμην, εἴργασμαι", ""),
  ("ἔργον", "Werk, Arbeit; Tat", "ἔργον, ου, τό", ""),
  ("ἔρημος", "einsam, verlassen", "ἔρημος, η, ον", ""),
  ("ἔρις", "Streit, Zank", "ἔρις, ιδος, ἡ", ""),
  ("ἔρχομαι", "gehen, kommen", "ἔρχομαι, εἶμι, ἦλθον, ἐλήλυθα", ""),
  ("ἔρως", "Liebe, Verlangen", "ἔρως, ωτος, ὁ", ""),
  ("ἐρωτάω", "fragen", "ἐρωτάω, ἐρήσομαι, ἠρόμην", ""),
  ("ἐσθίω", "essen", "ἐσθίω", ""),
  ("ἑσπέρα", "Abend", "ἑσπέρα, ας, ἡ", ""),
  ("ἔσχατος", "letzter, äußerster", "ἔσχατος, η, ον", ""),
  ("ἑταῖρος", "Freund, Gefährte", "ἑταῖρος, ου, ὁ", ""),
  ("ἕτερος", "der andere", "ἕτερος, α, ον", ""),
  ("ἔτι", "noch", "ἔτι", ""),
  ("ἕτοιμος", "bereit", "ἕτοιμος, η, ον", ""),
  ("ἔτος", "Jahr", "ἔτος, ους, τό", ""),
  ("εὖ", "gut", "εὖ", ""),
  ("εὐδαιμονία", "Glück, Glückseligkeit", "εὐδαιμονία, ας, ἡ", ""),
  ("εὐδαίμων", "glücklich, selig", "εὐδαίμων, ον", ""),
  ("εὐθύς", "sofort", "εὐθύς", ""),
  ("εὑρίσκω", "finden, erfinden", "εὑρίσκω, εὑρήσω, ηὗρον/εὗρον, ηὕρηκα/εὕρηκα", ""),
  ("εὐχή", "Gebet, Bitte", "εὐχή, ῆς, ἡ", ""),
  ("εὔχομαι", "beten; erflehen", "εὔχομαι", ""),
  ("ἐφίστημι", "voranstellen", "ἐφίστημι", ""),
  ("ἐχθρός", "feindlich, verhasst", "ἐχθρός, ά, όν", "ὁ ἐχθρός - der Feind"),
  ("ἔχω", "haben, halten; können", "ἔχω, ἕξω/σχήσω, ἔσχον, ἔσχηκα", "εὖ ἔχω - es geht mir gut"),
  ("Ζεύς", "Zeus", "Ζεύς, Διός, ὁ", "νὴ Δία/μὰ Δία - bei Zeus!"),
  ("ζηλόω", "nacheifern, bewundern", "ζηλόω", ""),
  ("ζημία", "Strafe", "ζημία, ας, ἡ", ""),
  ("ζητέω", "suchen; untersuchen; streben", "ζητέω, ζητήσω, ἐζήτησα, ἐζήτηκα", ""),
  ("ζήτησις", "Untersuchung", "ζήτησις, εως, ἡ", ""),
  ("ζάω", "leben", "ζάω, ζήσω, ἔζησα, ἔζηκα", ""),
  ("ζωή", "Leben", "ζωή, ῆς, ἡ", ""),
  ("ζῷον", "Lebewesen; Tier", "ζῷον, ου, τό", ""),
  ("ἤ", "oder; als", "ἤ", ""),
  ("ἡγεμών", "Führer, Anführer", "ἡγεμών, όνος, ὁ", ""),
  ("ἡγέομαι", "führen; glauben, meinen", "ἡγέομαι, ἡγήσομαι, ἡγησάμην", ""),
  ("ἤδη", "schon", "ἤδη", ""),
  ("ἥδομαι", "sich freuen", "ἥδομαι", ""),
  ("ἡδονή", "Vergnügen, Lust", "ἡδονή, ῆς, ἡ", ""),
  ("ἡδύς", "süß, angenehm", "ἡδύς, εῖα, ύ", ""),
  ("ἦθος", "Charakter, Wesensart", "ἦθος, ους, τό", ""),
  ("ἥκω", "kommen, da sein", "ἥκω, ἥξω", ""),
  ("ἡλικία", "Lebensalter", "ἡλικία, ας, ἡ", ""),
  ("ἥλιος", "Sonne", "ἥλιος, ου, ὁ", ""),
  ("ἡμεῖς", "wir", "ἡμεῖς, ἡμῶν, ἡμῖν, ἡμᾶς", ""),
  ("ἡμέρα", "Tag", "ἡμέρα, ας, ἡ", ""),
  ("ἡμέτερος", "unser", "ἡμέτερος, α, ον", ""),
  ("ἥρως", "Held, Halbgott", "ἥρως, ωος, ὁ", ""),
  ("ἡσυχία", "Ruhe", "ἡσυχία, ας, ἡ", "ἡσυχίαν ἄγω - Ruhe bewahren"),
  ("ἥττων", "geringer, schwächer", "ἥττων, ἧττον", "οὐδὲν ἧττον - trotzdem"),
  ("θάλαττα", "Meer", "θάλαττα, ης, ἡ", ""),
  ("θάνατος", "Tod", "θάνατος, ου, ὁ", ""),
  ("θάπτω", "bestatten, begraben", "θάπτω", ""),
  ("θαρρέω", "kühn sein, mutig sein", "θαρρέω", ""),
  ("θαυμάζω", "staunen, bewundern", "θαυμάζω, θαυμάσομαι, ἐθαύμασα, τεθαύμακα", ""),
  ("θαυμάσιος", "erstaunlich, wunderbar", "θαυμάσιος, α, ον", ""),
  ("θεάομαι", "betrachten, anschauen", "θεάομαι, θεάσομαι, ἐθεασάμην, τεθέαμαι", ""),
  ("θέατρον", "Theater", "θέατρον, ου, τό", ""),
  ("θεῖος", "göttlich", "θεῖος, θεία, θεῖον", ""),
  ("θεός", "Gott, Göttin", "θεός, οῦ, ὁ/ἡ", ""),
  ("θεραπεύω", "verehren; pflegen", "θεραπεύω", ""),
  ("θερμός", "warm", "θερμός, ή, όν", ""),
  ("θεωρέω", "betrachten, zuschauen", "θεωρέω", ""),
  ("θηράω", "jagen, erjagen", "θηράω", ""),
  ("θησαυρός", "Schatzkammer, Schatz", "θησαυρός, οῦ, ὁ", ""),
  ("θνητός", "sterblich", "θνητός, ή, όν", ""),
  ("θρόνος", "Sessel, Thron", "θρόνος, ου, ὁ", ""),
  ("θυγάτηρ", "Tochter", "θυγάτηρ, τρός, ἡ", ""),
  ("θυμός", "Mut, Zorn; Herz, Gemüt", "θυμός, οῦ, ὁ", ""),
  ("θύρα", "Tür, Tor", "θύρα, ας, ἡ", ""),
  ("θύω", "opfern", "θύω, θύσω, ἔθυσα, τέθυκα", ""),
  ("ἰατρική", "Heilkunst", "ἰατρική, ῆς, ἡ", ""),
  ("ἰατρός", "Arzt", "ἰατρός, οῦ, ὁ", ""),
  ("ἴδιος", "eigen; privat", "ἴδιος, ία, ιον", "ἰδίᾳ - privat"),
  ("ἰδιώτης", "Privatmann, Laie", "ἰδιώτης, ου, ὁ", ""),
  ("ἱερός", "heilig, geweiht", "ἱερός, ά, όν", ""),
  ("ἵημι", "in Bewegung setzen", "ἵημι, ἥσω, ἧκα, εἷκα, εἷμαι, εἵθην", ""),
  ("ἱκανός", "ausreichend; geeignet", "ἱκανός, ή, όν", ""),
  ("ἱκετεύω", "anflehen", "ἱκετεύω", ""),
  ("ἵνα", "damit, um zu; wo", "ἵνα", ""),
  ("ἵππος", "Pferd", "ἵππος, ου, ὁ", ""),
  ("ἴσος", "gleich; gerecht", "ἴσος, η, ον", ""),
  ("ἵστημι", "stellen, hinstellen", "ἵστημι, στήσω, ἔστησα/ἔστην, ἔστηκα", ""),
  ("ἰστορία", "Forschung, Geschichte", "ἰστορία, ας, ἡ", ""),
  ("ἰσχυρός", "stark, kraftvoll", "ἰσχυρός, ά, όν", ""),
  ("ἴσως", "vielleicht", "ἴσως", ""),
  ("καθεύδω", "schlafen", "καθεύδω", ""),
  ("κάθημαι", "sitzen", "κάθημαι", ""),
  ("καί", "und; auch, sogar", "καί", "καί...καί - sowohl...als auch, καὶ δὴ καί - und ganz besonders"),
  ("καίπερ", "obwohl", "καίπερ", ""),
  ("καιρός", "rechte Zeit, Gelegenheit", "καιρός, οῦ, ὁ", "κατὰ καιρόν - zur rechten Zeit"),
  ("καίτοι", "und doch", "καίτοι", ""),
  ("καίω", "anzünden, verbrennen", "καίω", ""),
  ("κακός", "schlecht, böse", "κακός, ή, όν", "κακῶς λέγω - schlecht reden"),
  ("καλέω", "rufen; nennen", "καλέω, καλῶ, ἐκάλεσα, κέκληκα, κέκλημαι, ἐκλήθην", "ὁ καλούμενος - der sogenannte"),
  ("καλός", "schön, gut", "καλός, ή, όν", ""),
  ("καρδία", "Herz", "καρδία, ας, ἡ", ""),
  ("κατά", "von...herab (+Gen.); gemäß (+Akk.)", "κατά", "κατὰ φύσιν - gemäß der Natur"),
  ("κατανοέω", "wahrnehmen, verstehen", "κατανοέω", ""),
  ("κατασκευάζω", "einrichten", "κατασκευάζω", ""),
  ("καταφρονέω", "verachten", "καταφρονέω", ""),
  ("κατέχω", "niederhalten, festhalten", "κατέχω", ""),
  ("κατηγορέω", "anklagen", "κατηγορέω", ""),
  ("κεῖμαι", "liegen", "κεῖμαι, κείσομαι", ""),
  ("κελεύω", "befehlen, auffordern", "κελεύω, κελεύσω, ἐκέλευσα", ""),
  ("κερδαίνω", "gewinnen", "κερδαίνω", ""),
  ("κέρδος", "Gewinn, Vorteil", "κέρδος, ους, τό", ""),
  ("κεφαλή", "Kopf", "κεφαλή, ῆς, ἡ", ""),
  ("κινδυνεύω", "in Gefahr sein; scheinen", "κινδυνεύω", ""),
  ("κίνδυνος", "Gefahr", "κίνδυνος, ου, ὁ", ""),
  ("κινέω", "bewegen", "κινέω", ""),
  ("κλέπτω", "stehlen", "κλέπτω", ""),
  ("κοινός", "gemeinsam", "κοινός, ή, όν", "κοινῇ - gemeinsam"),
  ("κολάζω", "bestrafen", "κολάζω", ""),
  ("κομίζω", "bringen, transportieren", "κομίζω", ""),
  ("κόρη", "Mädchen, Tochter", "κόρη, ης, ἡ", ""),
  ("κοσμέω", "ordnen, schmücken", "κοσμέω", ""),
  ("κόσμος", "Ordnung; Schmuck; Welt", "κόσμος, ου, ὁ", ""),
  ("κρατέω", "stärker sein; besiegen", "κρατέω, κρατήσω, ἐκράτησα", ""),
  ("κράτος", "Stärke, Macht", "κράτος, ους, τό", ""),
  ("κρείττων", "stärker, besser", "κρείττων, κρεῖττον", "Komp. zu ἀγαθός"),
  ("κρίνω", "unterscheiden; urteilen", "κρίνω, κρινῶ, ἔκρινα, κέκρικα", ""),
  ("κρίσις", "Entscheidung, Urteil", "κρίσις, εως, ἡ", ""),
  ("κρύπτω", "verbergen", "κρύπτω", ""),
  ("κτάομαι", "erwerben", "κτάομαι, κτήσομαι, ἐκτησάμην, κέκτημαι", "κέκτημαι - besitzen"),
  ("κτῆμα", "Besitz", "κτῆμα, ατος, τό", ""),
  ("κύκλος", "Kreis", "κύκλος, ου, ὁ", ""),
  ("κύριος", "Herr", "κύριος, ου, ὁ", ""),
  ("κωλύω", "hindern, abhalten", "κωλύω, κωλύσω, ἐκώλυσα", ""),
  ("λαμβάνω", "nehmen, ergreifen; erhalten", "λαμβάνω, λήψομαι, ἔλαβον, εἴληφα, εἴλημμαι, ἐλήφθην", ""),
  ("λανθάνω", "verborgen sein", "λανθάνω, λήσω, ἔλαθον, λέληθα", "λανθάνω ποιῶν τι - etw. unbemerkt tun"),
  ("λέγω", "sagen, sprechen; nennen", "λέγω, ἐρῶ, εἶπον, εἴρηκα, εἴρημαι, ἐλέχθην/ἐρρήθην", "ὡς ἔπος εἰπεῖν - sozusagen"),
  ("λείπω", "lassen; verlassen", "λείπω, λείψω, ἔλιπον, λέλοιπα, λέλειμμαι, ἐλείφθην", ""),
  ("λίθος", "Stein", "λίθος, ου, ὁ", ""),
  ("λογίζομαι", "rechnen, überlegen", "λογίζομαι, λογιοῦμαι, ἐλογισάμην, λελόγισμαι", ""),
  ("λόγος", "Wort, Rede; Gedanke; Erzählung", "λόγος, ου, ὁ", "λόγον δίδωμι - Rechenschaft ablegen"),
  ("λοιπός", "übrig", "λοιπός, ή, όν", "τὸ λοιπόν - künftig"),
  ("λυπέω", "betrüben", "λυπέω", ""),
  ("λύπη", "Schmerz, Leid", "λύπη, ης, ἡ", ""),
  ("λύω", "lösen, auflösen", "λύω, λύσω, ἔλυσα, λέλυκα, λέλυμαι, ἐλύθην", ""),
  ("μάθημα", "Lerngegenstand, Kenntnis", "μάθημα, ατος, τό", ""),
  ("μαθητής", "Schüler", "μαθητής, οῦ, ὁ", ""),
  ("μαίνομαι", "rasen, wüten", "μαίνομαι", ""),
  ("μακάριος", "glückselig, selig", "μακάριος, α, ον", ""),
  ("μακρός", "lang, groß", "μακρός, ά, όν", ""),
  ("μάλα", "sehr", "μάλα, μᾶλλον, μάλιστα", ""),
  ("μάλιστα", "am meisten, besonders", "μάλιστα", ""),
  ("μᾶλλον", "mehr, lieber", "μᾶλλον", "μᾶλλον δέ - vielmehr"),
  ("μανθάνω", "lernen; verstehen", "μανθάνω, μαθήσομαι, ἔμαθον, μεμάθηκα", ""),
  ("μάντις", "Seher, Wahrsager", "μάντις, εως, ὁ", ""),
  ("μαρτυρέω", "bezeugen", "μαρτυρέω", ""),
  ("μάρτυς", "Zeuge", "μάρτυς, υρος, ὁ/ἡ", ""),
  ("μάχη", "Kampf", "μάχη, ης, ἡ", ""),
  ("μάχομαι", "kämpfen", "μάχομαι, μαχοῦμαι, ἐμαχεσάμην, μεμάχημαι", ""),
  ("μέγας", "groß, bedeutend", "μέγας, μεγάλη, μέγα", ""),
  ("μέγεθος", "Größe", "μέγεθος, ους, τό", ""),
  ("μείς", "Monat", "μείς, μηνός, ὁ", ""),
  ("μέλει", "es liegt am Herzen", "μέλει", "μέλει μοί τινος - ich kümmere mich um etw."),
  ("μέλλω", "im Begriff sein; sollen; zögern", "μέλλω, μελλήσω, ἐμέλλησα", "τὰ μέλλοντα - die Zukunft"),
  ("μέλος", "Glied; Lied", "μέλος, ους, τό", ""),
  ("μέν", "zwar", "μέν", "μέν...δέ - zwar...aber"),
  ("μέντοι", "freilich, allerdings", "μέντοι", ""),
  ("μένω", "bleiben, warten", "μένω, μενῶ, ἔμεινα, μεμένηκα", ""),
  ("μέρος", "Teil", "μέρος, ους, τό", "τὸ ἐμὸν μέρος - was mich betrifft"),
  ("μέσος", "mittlerer, mitten", "μέσος, η, ον", ""),
  ("μετά", "mit (+Gen.); nach (+Akk.)", "μετά", ""),
  ("μετέχω", "Anteil haben", "μετέχω", ""),
  ("μέτρον", "Maß", "μέτρον, ου, τό", ""),
  ("μή", "nicht", "μή", ""),
  ("μηδέ", "und nicht, auch nicht", "μηδέ", ""),
  ("μηδείς", "niemand, nichts", "μηδείς, μηδεμία, μηδέν", ""),
  ("μήν", "wahrlich", "μήν", ""),
  ("μήτηρ", "Mutter", "μήτηρ, τρός, ἡ", ""),
  ("μηχανή", "Kunstgriff, Mittel, Maschine", "μηχανή, ῆς, ἡ", ""),
  ("μικρός", "klein", "μικρός, ά, όν", "μικροῦ δεῖν - beinahe"),
  ("μιμέομαι", "nachahmen", "μιμέομαι", ""),
  ("μιμνήσκω", "erinnern", "μιμνήσκω", ""),
  ("μισέω", "hassen", "μισέω", ""),
  ("μνήμη", "Gedächtnis, Andenken", "μνήμη, ης, ἡ", ""),
  ("μοῖρα", "Anteil; Schicksal", "μοῖρα, ας, ἡ", ""),
  ("μόνος", "allein, einzig", "μόνος, η, ον", "μόνον - nur"),
  ("μῦθος", "Wort; Erzählung", "μῦθος, ου, ὁ", ""),
  ("μύριοι", "zehntausend", "μύριοι, αι, α", ""),
  ("ναί", "ja", "ναί", ""),
  ("ναός", "Tempel", "ναός, οῦ, ὁ", ""),
  ("ναῦς", "Schiff", "ναῦς, νεώς, ἡ", ""),
  ("νεκρός", "tot; Leichnam", "νεκρός, ά, όν", ""),
  ("νέμω", "zuteilen; weiden", "νέμω", ""),
  ("νέος", "neu, jung", "νέος, α, ον", "οἱ νέοι - die jungen Männer"),
  ("νῆσος", "Insel", "νῆσος, ου, ἡ", ""),
  ("νικάω", "siegen, besiegen", "νικάω, νικήσω, ἐνίκησα, νενίκηκα", ""),
  ("νίκη", "Sieg", "νίκη, ης, ἡ", ""),
  ("νοέω", "denken; erkennen", "νοέω", ""),
  ("νομίζω", "glauben, meinen; anerkennen", "νομίζω, νομιῶ, ἐνόμισα, νενόμικα", ""),
  ("νόμιμος", "gesetzlich", "νόμιμος, η, ον", ""),
  ("νόμος", "Gesetz; Sitte", "νόμος, ου, ὁ", ""),
  ("νόσος", "Krankheit", "νόσος, ου, ἡ", ""),
  ("νοῦς", "Verstand, Geist", "νοῦς, νοῦ, ὁ", "τὸν νοῦν προσέχειν - achten auf"),
  ("νῦν", "nun", "νῦν", ""),
  ("νύξ", "Nacht", "νύξ, νυκτός, ἡ", "νυκτός - nachts"),
  ("ξένος", "Fremder; Gast; Söldner", "ξένος, ου, ὁ", ""),
  ("ξύλον", "Holz", "ξύλον, ου, τό", ""),
  ("ὁ", "der", "ὁ, ἡ, τό", "ὁ μέν...ὁ δέ - der eine...der andere"),
  ("ὅδε", "dieser hier", "ὅδε, ἥδε, τόδε", ""),
  ("ὁδός", "Weg, Reise", "ὁδός, οῦ, ἡ", ""),
  ("οἶδα", "wissen, kennen", "οἶδα, εἴσομαι", ""),
  ("οἰκεῖος", "häuslich; eigen; verwandt", "οἰκεῖος, α, ον", ""),
  ("οἰκέω", "wohnen, bewohnen", "οἰκέω, οἰκήσω, ᾤκησα", ""),
  ("οἰκία", "Haus, Gebäude", "οἰκία, ας, ἡ", ""),
  ("οἶκος", "Haus; Familie", "οἶκος, ου, ὁ", ""),
  ("οἶνος", "Wein", "οἶνος, ου, ὁ", ""),
  ("οἴομαι", "glauben, meinen", "οἴομαι/οἶμαι", ""),
  ("οἷος", "wie beschaffen", "οἷος, οία, οἷον", "οἷός τέ εἰμι - imstande sein"),
  ("οἴχομαι", "fortgehen, fortsein", "οἴχομαι", ""),
  ("ὀλίγος", "wenig, gering", "ὀλίγος, η, ον", "ὀλίγου δεῖν - beinahe"),
  ("ὅλος", "ganz", "ὅλος, η, ον", "καθ\u0027 ὅλου - im allgemeinen"),
  ("ὅμοιος", "gleich, ähnlich", "ὅμοιος, α, ον", ""),
  ("ὁμολογέω", "übereinstimmen, zustimmen", "ὁμολογέω", ""),
  ("ὅμως", "dennoch", "ὅμως", ""),
  ("ὄνομα", "Name; Ruf", "ὄνομα, ατος, τό", ""),
  ("ὀνομάζω", "nennen, benennen", "ὀνομάζω", ""),
  ("ὁπλίτης", "Schwerbewaffneter", "ὁπλίτης, ου, ὁ", ""),
  ("ὅπλον", "Waffe", "ὅπλον, ου, τό", ""),
  ("ὁπότε", "als, wenn", "ὁπότε", ""),
  ("ὅπου", "wo", "ὅπου", ""),
  ("ὁράω", "sehen", "ὁράω, ὄψομαι, εἶδον, ἑώρακα, ὦμμαι, ὤφθην", ""),
  ("ὄργανον", "Werkzeug, Instrument", "ὄργανον, ου, τό", ""),
  ("ὀργή", "Zorn", "ὀργή, ῆς, ἡ", ""),
  ("ὀρθός", "gerade, aufrecht; richtig", "ὀρθός, ή, όν", ""),
  ("ὁρίζω", "begrenzen, definieren", "ὁρίζω", ""),
  ("ὁρμάω", "sich in Bewegung setzen", "ὁρμάω", ""),
  ("ὄρνις", "Vogel", "ὄρνις, ιθος, ὁ/ἡ", ""),
  ("ὄρος", "Berg", "ὄρος, ους, τό", ""),
  ("ὅς", "welcher, der", "ὅς, ἥ, ὅ", "ὃς ἄν - wer auch immer"),
  ("ὅσιος", "heilig, recht; fromm", "ὅσιος, α, ον", ""),
  ("ὅσος", "wie groß, wie viel", "ὅσος, η, ον", "ὅσῳ...τοσούτῳ - je...desto"),
  ("ὅστις", "wer auch immer", "ὅστις, ἥτις, ὅ τι", ""),
  ("ὅταν", "immer wenn", "ὅταν", ""),
  ("ὅτε", "als, wenn", "ὅτε", ""),
  ("ὅτι", "dass, weil", "ὅτι", ""),
  ("οὐ", "nicht", "οὐ, οὐκ, οὐχ", ""),
  ("οὐδέ", "und nicht, auch nicht", "οὐδέ", ""),
  ("οὐδείς", "niemand, nichts", "οὐδείς, οὐδεμία, οὐδέν", ""),
  ("οὐκέτι", "nicht mehr", "οὐκέτι", ""),
  ("οὖν", "nun; also", "οὖν", ""),
  ("οὔπω", "noch nicht", "οὔπω", ""),
  ("οὐρανός", "Himmel", "οὐρανός, οῦ, ὁ", ""),
  ("οὔτε...οὔτε", "weder... noch", "οὔτε...οὔτε", ""),
  ("οὗτος", "dieser", "οὗτος, αὕτη, τοῦτο", ""),
  ("οὕτως", "so", "οὕτως/οὕτω", ""),
  ("ὀφείλω", "schulden, sollen", "ὀφείλω", "ὤφελες - du hättest sollen"),
  ("ὀφθαλμός", "Auge", "ὀφθαλμός, οῦ, ὁ", ""),
  ("ὄψις", "Sehkraft, Aussehen", "ὄψις, εως, ἡ", ""),
  ("πάθος", "Erlebnis; Leid, Leiden; Leidenschaft", "πάθος, ους, τό", ""),
  ("παιδεία", "Erziehung, Bildung", "παιδεία, ας, ἡ", ""),
  ("παιδεύω", "erziehen, bilden", "παιδεύω", ""),
  ("παιδίον", "Kind", "παιδίον, ου, τό", ""),
  ("παῖς", "Kind; Sklave", "παῖς, παιδός, ὁ/ἡ", ""),
  ("παλαιός", "alt", "παλαιός, ά, όν", ""),
  ("πάλιν", "wieder, zurück", "πάλιν", ""),
  ("παντάπασι", "ganz und gar", "παντάπασι", ""),
  ("πάνυ", "ganz, sehr", "πάνυ", ""),
  ("παρά", "von (+Gen.); bei (+Dat.); zu (+Akk.)", "παρά", ""),
  ("παραγίγνομαι", "hinzukommen", "παραγίγνομαι", ""),
  ("παραδίδωμι", "übergeben, überliefern", "παραδίδωμι", ""),
  ("παρακαλέω", "herbeirufen, auffordern", "παρακαλέω", ""),
  ("παρασκευάζω", "vorbereiten", "παρασκευάζω", ""),
  ("πάρειμι", "da sein, anwesend sein", "πάρειμι", "πάρεστί μοι - es steht in meiner Macht"),
  ("παρέχω", "gewähren, geben", "παρέχω", ""),
  ("πᾶς", "all, ganz, jeder", "πᾶς, πᾶσα, πᾶν", ""),
  ("πάσχω", "erleiden; erleben", "πάσχω, πείσομαι, ἔπαθον, πέπονθα", ""),
  ("πατήρ", "Vater", "πατήρ, πατρός, ὁ", ""),
  ("πατρίς", "Vaterland, Heimat", "πατρίς, ίδος, ἡ", ""),
  ("παύω", "beenden, aufhören lassen", "παύω, παύσω, ἔπαυσα", ""),
  ("πείθω", "überreden, überzeugen", "πείθω, πείσω, ἔπεισα, πέποιθα, πέπεισμαι, ἐπείσθην", ""),
  ("πειράω", "versuchen", "πειράω", ""),
  ("πέμπω", "schicken, senden", "πέμπω, πέμψω, ἔπεμψα", ""),
  ("πέντε", "fünf", "πέντε", ""),
  ("περί", "über (+Gen.); um (+Akk.)", "περί", ""),
  ("πέτρα", "Fels, Stein", "πέτρα, ας, ἡ", ""),
  ("πίνω", "trinken", "πίνω, πίομαι, ἔπιον", ""),
  ("πίπτω", "fallen", "πίπτω, πεσοῦμαι, ἔπεσον, πέπτωκα", ""),
  ("πιστεύω", "glauben, vertrauen", "πιστεύω, πιστεύσω, ἐπίστευσα", ""),
  ("πίστις", "Treue, Vertrauen", "πίστις, εως, ἡ", ""),
  ("πιστός", "treu, zuverlässig", "πιστός, ή, όν", ""),
  ("πλανάομαι", "sich verirren, umherirren", "πλανάομαι", ""),
  ("πλέω", "segeln, fahren", "πλέω, πλεύσομαι, ἔπλευσα", ""),
  ("πλήθος", "Menge", "πλήθος, ους, τό", ""),
  ("πλήν", "außer", "πλήν", ""),
  ("πλήττω", "schlagen", "πλήττω", ""),
  ("πλοῖον", "Schiff", "πλοῖον, ου, τό", ""),
  ("πλοῦτος", "Reichtum", "πλοῦτος, ου, ὁ", ""),
  ("ποιέω", "machen, tun; dichten", "ποιέω, ποιήσω, ἐποίησα, πεποίηκα, πεποίημαι, ἐποιήθην", ""),
  ("ποίησις", "Dichtung, Poesie", "ποίησις, εως, ἡ", ""),
  ("ποιητής", "Dichter; Schöpfer", "ποιητής, οῦ, ὁ", ""),
  ("ποῖος", "wie beschaffen?", "ποῖος, α, ον", ""),
  ("πόλεμος", "Krieg", "πόλεμος, ου, ὁ", ""),
  ("πόλις", "Stadt; Staat", "πόλις, εως, ἡ", ""),
  ("πολιτεία", "Staatsverfassung", "πολιτεία, ας, ἡ", ""),
  ("πολίτης", "Bürger", "πολίτης, ου, ὁ", ""),
  ("πολιτικός", "bürgerlich, politisch", "πολιτικός, ή, όν", ""),
  ("πολλάκις", "oft", "πολλάκις", ""),
  ("πολύς", "viel", "πολύς, πολλή, πολύ", "οἱ πολλοί - die meisten"),
  ("πονηρός", "schlecht, böse", "πονηρός, ά, όν", ""),
  ("πόνος", "Mühe, Arbeit", "πόνος, ου, ὁ", ""),
  ("πορεύομαι", "reisen, marschieren", "πορεύομαι, πορεύσομαι, ἐπορεύθην", ""),
  ("ποταμός", "Fluss", "ποταμός, οῦ, ὁ", ""),
  ("πότε", "wann?", "πότε", ""),
  ("ποτέ", "einst, jemals", "ποτέ", ""),
  ("πότερος", "welcher von beiden?", "πότερος, α, ον", ""),
  ("ποῦ", "wo?", "ποῦ", ""),
  ("πούς", "Fuß", "πούς, ποδός, ὁ", ""),
  ("πρᾶγμα", "Tat, Sache, Angelegenheit", "πρᾶγμα, ατος, τό", "πράγματα παρέχω - Schwierigkeiten bereiten"),
  ("πρᾶξις", "Handlung, Tätigkeit", "πρᾶξις, εως, ἡ", ""),
  ("πράττω", "tun, handeln", "πράττω, πράξω, ἔπραξα, πέπραχα", "εὖ πράττω - es geht mir gut"),
  ("πρέπει", "es gehört sich", "πρέπει", ""),
  ("πρέσβυς", "alter Mann; Gesandter", "πρέσβυς, εως, ὁ", ""),
  ("πρίν", "ehe, bevor", "πρίν", ""),
  ("πρό", "vor", "πρό", ""),
  ("πρός", "zu, gegen, bei", "πρός", ""),
  ("προσέχω", "hinlenken", "προσέχω", "προσέχω τὸν νοῦν - achten auf"),
  ("πρόσωπον", "Gesicht; Person", "πρόσωπον, ου, τό", ""),
  ("πρότερος", "der frühere", "πρότερος, α, ον", "πρότερον - früher"),
  ("πρῶτος", "der erste", "πρῶτος, η, ον", "πρῶτον - zuerst"),
  ("πυνθάνομαι", "sich erkundigen, erfahren", "πυνθάνομαι, πεύσομαι, ἐπυθόμην, πέπυσμαι", ""),
  ("πῦρ", "Feuer", "πῦρ, πυρός, τό", ""),
  ("πώποτε", "jemals", "πώποτε", ""),
  ("πῶς", "wie?", "πῶς", ""),
  ("πως", "irgendwie", "πως", ""),
  ("ῥᾴδιος", "leicht", "ῥᾴδιος, α, ον", ""),
  ("ῥέω", "fließen", "ῥέω", ""),
  ("ῥήτωρ", "Redner", "ῥήτωρ, ορος, ὁ", ""),
  ("σαφής", "deutlich, klar", "σαφής, ές", ""),
  ("σεαυτοῦ", "deiner selbst", "σεαυτοῦ, ῆς, οῦ", ""),
  ("σέβομαι", "verehren", "σέβομαι", ""),
  ("σημαίνω", "zeigen, anzeigen", "σημαίνω", ""),
  ("σῖτος", "Getreide, Nahrung", "σῖτος, ου, ὁ", ""),
  ("σκηνή", "Zelt; Bühne", "σκηνή, ῆς, ἡ", ""),
  ("σκοπέω", "betrachten, prüfen", "σκοπέω", ""),
  ("σός", "dein", "σός, σή, σόν", ""),
  ("σοφία", "Weisheit, Klugheit", "σοφία, ας, ἡ", ""),
  ("σοφός", "weise, klug", "σοφός, ή, όν", ""),
  ("σπεύδω", "eilen, sich beeilen", "σπεύδω", ""),
  ("σπουδάζω", "sich beeilen, sich bemühen", "σπουδάζω", ""),
  ("σπουδή", "Eifer, Ernst; Eile", "σπουδή, ῆς, ἡ", ""),
  ("στάσις", "Aufstand, Unruhe", "στάσις, εως, ἡ", ""),
  ("στέφανος", "Kranz, Siegeskranz", "στέφανος, ου, ὁ", ""),
  ("στοά", "Säulenhalle", "στοά, ᾶς, ἡ", ""),
  ("στρατηγός", "Feldherr", "στρατηγός, οῦ, ὁ", ""),
  ("στρατιώτης", "Soldat", "στρατιώτης, ου, ὁ", ""),
  ("στρατός", "Heer", "στρατός, οῦ, ὁ", ""),
  ("στρέφω", "drehen, wenden", "στρέφω", ""),
  ("σύ", "du", "σύ, σοῦ", ""),
  ("συγγίγνομαι", "zusammenkommen", "συγγίγνομαι", ""),
  ("συγχωρέω", "nachgeben, zustimmen", "συγχωρέω", ""),
  ("συμβαίνω", "sich ereignen", "συμβαίνω, συμβήσομαι, συνέβην, συμβέβηκα", ""),
  ("συμβουλεύω", "raten", "συμβουλεύω", ""),
  ("σύμμαχος", "verbündet", "σύμμαχος, ον", ""),
  ("σύν", "mit", "σύν", ""),
  ("σύνειμι", "zusammen sein", "σύνειμι", ""),
  ("συνίημι", "verstehen", "συνίημι", ""),
  ("σφόδρα", "sehr", "σφόδρα", ""),
  ("σχεδόν", "beinahe", "σχεδόν", ""),
  ("σχῆμα", "Haltung, Gestalt", "σχῆμα, ατος, τό", ""),
  ("σχολή", "Muße; Schule", "σχολή, ῆς, ἡ", ""),
  ("σῴζω", "retten, bewahren", "σῴζω, σώσω, ἔσωσα, σέσωκα", ""),
  ("σῶμα", "Körper", "σῶμα, ατος, τό", ""),
  ("σωτήρ", "Retter", "σωτήρ, ῆρος, ὁ", ""),
  ("σωφροσύνη", "Besonnenheit", "σωφροσύνη, ης, ἡ", ""),
  ("σώφρων", "besonnen, vernünftig", "σώφρων, ον", ""),
  ("τάττω", "aufstellen, anordnen", "τάττω, τάξω, ἔταξα, τέταχα, τέταγμαι, ἐτάχθην", ""),
  ("ταχύς", "schnell", "ταχύς, εῖα, ύ", ""),
  ("τε", "und", "τε", "...τε...καί - sowohl...als auch"),
  ("τεῖχος", "Mauer", "τεῖχος, ους, τό", ""),
  ("τεκμήριον", "Beweis", "τεκμήριον, ου, τό", ""),
  ("τέκνον", "Kind", "τέκνον, ου, τό", ""),
  ("τελευτάω", "beenden; sterben", "τελευτάω", ""),
  ("τελέω", "vollenden, bezahlen", "τελέω", ""),
  ("τέλος", "Ende; Ziel", "τέλος, ους, τό", "τέλος - endlich"),
  ("τέμνω", "schneiden", "τέμνω, τεμῶ, ἔτεμον", ""),
  ("τέτταρες", "vier", "τέτταρες, α", ""),
  ("τέχνη", "Kunst, Fähigkeit", "τέχνη, ης, ἡ", ""),
  ("τίθημι", "setzen, stellen, legen", "τίθημι, θήσω, ἔθηκα, τέθηκα, κεῖμαι, ἐτέθην", ""),
  ("τίκτω", "zeugen, gebären", "τίκτω, τέξομαι, ἔτεκον, τέτοκα", ""),
  ("τιμάω", "ehren", "τιμάω, τιμήσω, ἐτίμησα, τετίμηκα", ""),
  ("τιμή", "Ehre", "τιμή, ῆς, ἡ", ""),
  ("τις", "jemand, irgendeiner", "τις, τι", ""),
  ("τίς", "wer? was?", "τίς, τί", ""),
  ("τοι", "wahrlich", "τοι", ""),
  ("τοίνυν", "also, folglich", "τοίνυν", ""),
  ("τοιοῦτος", "solcher, derartig", "τοιοῦτος, αύτη, οῦτο", ""),
  ("τολμάω", "wagen", "τολμάω", ""),
  ("τόπος", "Ort, Platz", "τόπος, ου, ὁ", ""),
  ("τοσοῦτος", "so groß", "τοσοῦτος, αύτη, οῦτο", ""),
  ("τότε", "da, damals, dann", "τότε", ""),
  ("τρεῖς", "drei", "τρεῖς, τρία", ""),
  ("τρέπω", "wenden", "τρέπω, τρέψω, ἔτρεψα", ""),
  ("τρέφω", "ernähren, aufziehen", "τρέφω, θρέψω, ἔθρεψα, τέθραμμαι, ἐτράφην", ""),
  ("τρόπος", "Art und Weise; Charakter", "τρόπος, ου, ὁ", ""),
  ("τυγχάνω", "treffen; gerade tun", "τυγχάνω, τεύξομαι, ἔτυχον, τετύχηκα", "τυγχάνω ποιῶν τι - gerade etw. tun"),
  ("τύπτω", "schlagen", "τύπτω", ""),
  ("τύραννος", "Gewaltherrscher", "τύραννος, ου, ὁ", ""),
  ("τύχη", "Zufall, Schicksal, Glück", "τύχη, ης, ἡ", ""),
  ("ὕβρις", "Hochmut; Freveltat", "ὕβρις, εως, ἡ", ""),
  ("ὑγίεια", "Gesundheit", "ὑγίεια, ας, ἡ", ""),
  ("ὑγιής", "gesund", "ὑγιής, ές", ""),
  ("ὕδωρ", "Wasser", "ὕδωρ, ατος, τό", ""),
  ("υἱός", "Sohn", "υἱός, οῦ, ὁ", ""),
  ("ὑμεῖς", "ihr", "ὑμεῖς, ὑμῶν, ὑμῖν, ὑμᾶς", ""),
  ("ὑμέτερος", "euer", "ὑμέτερος, α, ον", ""),
  ("ὕπνος", "Schlaf", "ὕπνος, ου, ὁ", ""),
  ("ὑπό", "unter (+Gen./Dat./Akk.)", "ὑπό", ""),
  ("ὑπολαμβάνω", "vermuten; entgegnen", "ὑπολαμβάνω", ""),
  ("φαίνω", "zeigen; erscheinen", "φαίνω, φανῶ, ἔφηνα, πέφηνα, πέφασμαι, ἐφάνην", ""),
  ("φανερός", "sichtbar, deutlich", "φανερός, ά, όν", ""),
  ("φάρμακον", "Heilmittel, Gift", "φάρμακον, ου, τό", ""),
  ("φάσκω", "sagen, behaupten", "φάσκω", ""),
  ("φαῦλος", "schlecht", "φαῦλος, η, ον", ""),
  ("φέρω", "tragen, bringen, ertragen", "φέρω, οἴσω, ἤνεγκον, ἐνήνοχα, ἐνήνεγμαι, ἠνέχθην", ""),
  ("φεύγω", "fliehen, meiden", "φεύγω, φεύξομαι, ἔφυγον, πέφευγα", ""),
  ("φημί", "sagen, behaupten", "φημί, φήσω, ἔφησα/ἔφην", ""),
  ("φθονέω", "beneiden", "φθονέω", ""),
  ("φιλέω", "lieben", "φιλέω", ""),
  ("φιλία", "Freundschaft", "φιλία, ας, ἡ", ""),
  ("φίλος", "lieb; Freund", "φίλος, η, ον", ""),
  ("φιλοσοφία", "Philosophie", "φιλοσοφία, ας, ἡ", ""),
  ("φιλόσοφος", "Philosoph", "φιλόσοφος, ου, ὁ", ""),
  ("φοβέομαι", "sich fürchten", "φοβέομαι, φοβήσομαι, ἐφοβήθην", ""),
  ("φόβος", "Furcht", "φόβος, ου, ὁ", ""),
  ("φονεύω", "ermorden", "φονεύω", ""),
  ("φράζω", "sagen, zeigen", "φράζω, φράσω, ἔφρασα", ""),
  ("φρονέω", "denken, Verstand haben", "φρονέω", ""),
  ("φρόνιμος", "verständig, klug", "φρόνιμος, ον", ""),
  ("φροντίζω", "sich kümmern", "φροντίζω", ""),
  ("φυλάττω", "bewachen, bewahren", "φυλάττω, φυλάξω, ἐφύλαξα", ""),
  ("φύσις", "Natur; Wesen", "φύσις, εως, ἡ", ""),
  ("φωνή", "Stimme; Klang", "φωνή, ῆς, ἡ", ""),
  ("φῶς", "Licht", "φῶς, φωτός, τό", ""),
  ("χαίρω", "sich freuen", "χαίρω, χαιρήσω, κεχάρηκα, ἐχάρην", "χαῖρε - sei gegrüßt!"),
  ("χαλεπός", "schwer, schwierig", "χαλεπός, ή, όν", ""),
  ("χάρις", "Gefälligkeit, Dank; Anmut", "χάρις, ιτος, ἡ", "χάριν ἀποδίδωμι - danken"),
  ("χείρ", "Hand", "χείρ, χειρός, ἡ", ""),
  ("χείρων", "schlechter", "χείρων, χεῖρον", "Komp. zu κακός"),
  ("χέω", "gießen, vergießen", "χέω", ""),
  ("χορός", "Tanz, Reigen", "χορός, οῦ, ὁ", ""),
  ("χράομαι", "gebrauchen, benutzen", "χράομαι, χρήσομαι, ἐχρησάμην, κέχρημαι", ""),
  ("χρή", "es ist nötig, man muss", "χρή", ""),
  ("χρῆμα", "Sache; pl. Geld", "χρῆμα, ατος, τό", ""),
  ("χρήσιμος", "nützlich, brauchbar", "χρήσιμος, η, ον", ""),
  ("χρόνος", "Zeit", "χρόνος, ου, ὁ", ""),
  ("χρυσός", "Gold", "χρυσός, οῦ, ὁ", ""),
  ("χώρα", "Land, Gegend; Ort", "χώρα, ας, ἡ", ""),
  ("χωρέω", "weichen, gehen", "χωρέω", ""),
  ("χωρίς", "getrennt von, ohne", "χωρίς", ""),
  ("ψεύδω", "täuschen; lügen", "ψεύδω, ψεύσω, ἔψευσα", ""),
  ("ψυχή", "Seele, Leben", "ψυχή, ῆς, ἡ", ""),
  ("ψυχρός", "kalt", "ψυχρός, ά, όν", ""),
  ("ὦ", "o!", "ὦ", ""),
  ("ὦδε", "so, folgendermaßen", "ὦδε", ""),
  ("ᾠδή", "Gesang, Lied", "ᾠδή, ῆς, ἡ", ""),
  ("ὥρα", "Jahreszeit; rechte Zeit", "ὥρα, ας, ἡ", ""),
  ("ὡς", "wie, dass; damit", "ὡς", ""),
  ("ὥσπερ", "wie, gerade wie", "ὥσπερ", ""),
  ("ὥστε", "so dass; daher", "ὥστε", ""),
  ("ὠφελέω", "nützen; unterstützen", "ὠφελέω", ""),
  ("ὠφέλιμος", "nützlich", "ὠφέλιμος, ον", "")
]

/-- The synonym table of `OmegaWortschatz._build_synonyme`, in source order
(the duplicated literal key is kept; both occurrences bind the same value). -/
def synonyme : List (String × String) := [
  ("νόος", "νοῦς"),
  ("νόος", "νοῦς"),
  ("ἐσθίω", "ἔσθω"),
  ("Ζεύς", "Ζεύς"),
  ("ἐάω", "ἐάω"),
  ("θέλω", "ἐθέλω"),
  ("βιόω", "ζάω"),
  ("γῆ", "γαῖα"),
  ("θάλαττα", "θάλασσα"),
  ("πλείων", "πλέων"),
  ("σμικρός", "μικρός"),
  ("ξύν", "σύν"),
  ("τέσσαρες", "τέτταρες")
]

/-- The article set `VokabelPDFParser.artikel`. -/
def artikel : List String := ["ὁ", "ἡ", "τό", "τὸ", "οἱ", "αἱ", "τά", "τὰ", "τὸν", "τὴν", "τοῦ", "τῆς", "τῷ", "τῇ", "τούς", "τάς"]

/-- The accent table of `OmegaWortschatz._remove_accents`. -/
def accent_map : List (Char × Char) := [
  ('ά', 'α'), ('ὰ', 'α'), ('ἀ', 'α'), ('ἁ', 'α'),
  ('ἂ', 'α'), ('ἃ', 'α'), ('ἄ', 'α'), ('ἅ', 'α'),
  ('έ', 'ε'), ('ὲ', 'ε'), ('ἐ', 'ε'), ('ἑ', 'ε'),
  ('ἒ', 'ε'), ('ἓ', 'ε'), ('ἔ', 'ε'), ('ἕ', 'ε'),
  ('ή', 'η'), ('ὴ', 'η'), ('ἠ', 'η'), ('ἡ', 'η'),
  ('ἢ', 'η'), ('ἣ', 'η'), ('ἤ', 'η'), ('ἥ', 'η'),
  ('ί', 'ι'), ('ὶ', 'ι'), ('ἰ', 'ι'), ('ἱ', 'ι'),
  ('ἲ', 'ι'), ('ἳ', 'ι'), ('ἴ', 'ι'), ('ἵ', 'ι'),
  ('ό', 'ο'), ('ὸ', 'ο'), ('ὀ', 'ο'), ('ὁ', 'ο'),
  ('ὂ', 'ο'), ('ὃ', 'ο'), ('ὄ', 'ο'), ('ὅ', 'ο'),
  ('ύ', 'υ'), ('ὺ', 'υ'), ('ὐ', 'υ'), ('ὑ', 'υ'),
  ('ὒ', 'υ'), ('ὓ', 'υ'), ('ὔ', 'υ'), ('ὕ', 'υ'),
  ('ώ', 'ω'), ('ὼ', 'ω'), ('ὠ', 'ω'), ('ὡ', 'ω'),
  ('ὢ', 'ω'), ('ὣ', 'ω'), ('ὤ', 'ω'), ('ὥ', 'ω'),
  ('ΐ', 'ι'), ('ῒ', 'ι'), ('ῗ', 'ι'), ('ΰ', 'υ'),
  ('ῢ', 'υ'), ('ῧ', 'υ'), ('ᾶ', 'α'), ('ῆ', 'η'),
  ('ῖ', 'ι'), ('ῦ', 'υ'), ('ῶ', 'ω')
]

/-- Lookup `vocab_dict[w]`: the first (= only, the keys are distinct) binding of `w`. -/
def lookupVocab (w : String) : Option (String × String × String) :=
  (vocab_dict.find? (fun e => e.1 == w)).map (fun e => e.2)

/-- Lookup `synonyme[w]` (membership test and lookup of the synonym table). -/
def synLookup (w : String) : Option String :=
  (synonyme.find? (fun e => e.1 == w)).map (fun e => e.2)

/-- The fold `OmegaWortschatz._remove_accents`: map each character through `accent_map`,
characters outside the table pass through unchanged. -/
def remove_accents (text : String) : String :=
  ⟨text.data.map (fun c => (((accent_map.find? (fun e => e.1 == c)).map (fun e => e.2)).getD c))⟩

/-- Gloss list of a record: Python `[b.strip() for b in bedeutung.split(';')]`. -/
def splitBedeutungen (bedeutung : String) : List String :=
  (pySplitOn ';' bedeutung).map pyStrip

/-- The third tier of `finde_bedeutung`: linear scan of `vocab_dict` in insertion
order for the first key whose accent-folded form equals the folded query. -/
def fuzzyScan (suchbegriff : String) : Option (List String) × Bool × String :=
  match vocab_dict.find? (fun e => remove_accents e.1 == remove_accents suchbegriff) with
  | some e => (some (splitBedeutungen e.2.1), true, pyStrip (e.2.2.1 ++ " " ++ e.2.2.2))
  | none => (none, false, "")

/-- Resolution `OmegaWortschatz.finde_bedeutung`: returns
`(Liste der Bedeutungen, gefunden, Stammformen/Zusatzinfo)`.
Tier 1 exact match, tier 2 synonym redirect (falling through when the
redirect target is not a key), tier 3 accent-folded scan. -/
def finde_bedeutung (griechisch : String) : Option (List String) × Bool × String :=
  let suchbegriff := pyStrip griechisch
  match lookupVocab suchbegriff with
  | some (bedeutung, stammformen, zusatz) =>
      (some (splitBedeutungen bedeutung), true, pyStrip (stammformen ++ " " ++ zusatz))
  | none =>
      match synLookup suchbegriff with
      | some hauptform =>
          match lookupVocab hauptform with
          | some (bedeutung, stammformen, zusatz) =>
              (some (splitBedeutungen bedeutung), true,
               pyStrip (stammformen ++ " " ++ zusatz ++ " [Synonym zu " ++ hauptform ++ "]"))
          | none => fuzzyScan suchbegriff
      | none => fuzzyScan suchbegriff

/-- The Greek character test of the pattern `[Ͱ-Ͽἀ-῿]`. -/
def isGreekChar (c : Char) : Bool :=
  (0x370 ≤ c.toNat && c.toNat ≤ 0x3FF) || (0x1F00 ≤ c.toNat && c.toNat ≤ 0x1FFF)

/-- Maximal runs of Greek characters (`re.findall` of the pattern above),
accumulating the current run in reverse. -/
def greekRunsAux : List Char → List Char → List String
  | [], acc => if acc.isEmpty then [] else [⟨acc.reverse⟩]
  | c :: cs, acc =>
      if isGreekChar c then greekRunsAux cs (c :: acc)
      else if acc.isEmpty then greekRunsAux cs []
      else (⟨acc.reverse⟩ : String) :: greekRunsAux cs []

/-- All Greek runs of a line: `re.findall(greek_pattern, s)`. -/
def findallGreek (s : String) : List String := greekRunsAux s.data []

/-- Value of the matched digit group of `^(\d+)` (Python `int`). -/
def natOfDigits (ds : List Char) : Nat :=
  ds.foldl (fun n c => 10 * n + (c.toNat - 48)) 0

/-- The line loop of `VokabelPDFParser._parse_text`, carrying the running
state `(current_main, next_sub)` of the source. -/
def parseGo (current_main next_sub : Nat) : List String → List VokabelEintrag
  | [] => []
  | raw_line :: rest =>
    let line := pyStrip raw_line
    if line.data.isEmpty then parseGo current_main next_sub rest
    else
      let digits := line.data.takeWhile Char.isDigit
      if digits.isEmpty then
        if current_main == 0 then parseGo current_main next_sub rest
        else
          match findallGreek line with
          | [] => parseGo current_main next_sub rest
          | suchwort :: _ =>
              let r := finde_bedeutung suchwort
              { main_num := current_main, sub_num := next_sub + 1,
                griechisch := suchwort, stammformen := line,
                bedeutungen := r.1.getD [], gefunden := r.2.1,
                original_zeile := line } :: parseGo current_main (next_sub + 1) rest
      else
        let current_main' := natOfDigits digits
        let rest_text := pyStrip ⟨line.data.drop digits.length⟩
        let greek_words := findallGreek rest_text
        let hauptwort? :=
          match greek_words.find? (fun w => !(artikel.contains w)) with
          | some w => some w
          | none => greek_words.head?
        (match hauptwort? with
          | some hauptwort =>
              let r := finde_bedeutung hauptwort
              { main_num := current_main', sub_num := 0,
                griechisch := hauptwort, stammformen := rest_text,
                bedeutungen := r.1.getD [], gefunden := r.2.1,
                original_zeile := line }
          | none =>
              { main_num := current_main', sub_num := 0,
                griechisch := "", stammformen := rest_text,
                bedeutungen := [], gefunden := false,
                original_zeile := line }) :: parseGo current_main' 0 rest

/-- Page parse `VokabelPDFParser._parse_text`: split the page text into lines and run the loop
from the fresh per-page state `current_main = 0`, `next_sub = 0`. -/
def parse_text (text : String) : List VokabelEintrag :=
  parseGo 0 0 (pySplitOn '\n' text)

/-- The sort key comparison of `parse_pdf`: `(main_num, sub_num)` lexicographically. -/
def keyLe (a b : VokabelEintrag) : Bool :=
  a.main_num < b.main_num || (a.main_num == b.main_num && a.sub_num ≤ b.sub_num)

/-- The stabilising final sort of `parse_pdf` (Python `list.sort` is stable). -/
def sortEintraege (l : List VokabelEintrag) : List VokabelEintrag :=
  l.mergeSort keyLe

/-- Whole run `VokabelPDFParser.parse_pdf`: each page contributes its parsed text (pages
with no extracted text, or empty text, contribute nothing), then the whole
sequence is sorted by `(main_num, sub_num)`. -/
def parse_pdf (pages : List (Option String)) : List VokabelEintrag :=
  sortEintraege (pages.foldr
    (fun p acc =>
      (match p with
       | some t => if t == "" then [] else parse_text t
       | none => []) ++ acc) [])


/-! ### Helper definitions and lemmas for the verification -/

/-- Check whether `pat` starts the character list `s`. -/
def startsWithChars : List Char → List Char → Bool
  | [], _ => true
  | _ :: _, [] => false
  | a :: ps, b :: ss => a == b && startsWithChars ps ss

/-- Check whether `pat` occurs contiguously inside the second list (Python `in`). -/
def containsChars (pat : List Char) : List Char → Bool
  | [] => pat.isEmpty
  | b :: rest => startsWithChars pat (b :: rest) || containsChars pat rest

/-- Splitting a gloss string on semicolons yields at least one piece. -/
lemma splitBedeutungen_ne_nil (g : String) : splitBedeutungen g ≠ [] := by
  intro h
  have h2 : g.data.splitOn ';' = [] := by
    simpa [splitBedeutungen, pySplitOn] using h
  exact List.splitOnP_ne_nil _ _ (by simpa [List.splitOn] using h2)

/-- Every key of the dictionary is its own stripped form. -/
lemma vocab_keys_stripped :
    vocab_dict.all (fun e => pyStrip e.1 == e.1) = true := by decide

/-- Every found branch and the not-found branch of `fuzzyScan` have the
documented result shape. -/
lemma fuzzyScan_shape (v : String) :
    fuzzyScan v = (none, false, "") ∨ ∃ l a, fuzzyScan v = (some l, true, a) := by
  unfold fuzzyScan
  cases h : vocab_dict.find? (fun e => remove_accents e.1 == remove_accents v) with
  | none => left; rfl
  | some e => right; exact ⟨_, _, rfl⟩

/-- The gloss component of `fuzzyScan` is a non-empty list exactly when its
found flag is set. -/
lemma fuzzyScan_found_iff (v : String) :
    (fuzzyScan v).2.1 = true ↔ ∃ l, (fuzzyScan v).1 = some l ∧ l ≠ [] := by
  unfold fuzzyScan
  cases h : vocab_dict.find? (fun e => remove_accents e.1 == remove_accents v) with
  | none => simp
  | some e =>
      refine ⟨fun _ => ⟨_, rfl, splitBedeutungen_ne_nil e.2.1⟩, fun _ => rfl⟩

/-- The block-structure predicate on a produced entry sequence, relative to
the running parser state `(current_main, next_sub)`: each entry either is a
primary entry (`sub_num = 0`) that resets the state to its own main number,
or continues the current block with the next consecutive sub number. -/
def okFrom : Nat → Nat → List VokabelEintrag → Prop
  | _, _, [] => True
  | m, s, e :: rest =>
      (e.sub_num = 0 ∧ okFrom e.main_num 0 rest) ∨
      (e.main_num = m ∧ e.sub_num = s + 1 ∧ okFrom m (s + 1) rest)

/-- The parser loop maintains the block-structure predicate from any state. -/
lemma parseGo_okFrom (lines : List String) :
    ∀ m s : Nat, okFrom m s (parseGo m s lines) := by
  induction lines with
  | nil => intro m s; simp [parseGo, okFrom]
  | cons raw rest ih =>
      intro m s
      simp only [parseGo]
      split
      · exact ih m s
      · split
        · split
          · exact ih m s
          · split
            · exact ih m s
            · exact Or.inr ⟨rfl, rfl, ih m (s + 1)⟩
        · split
          · exact Or.inl ⟨rfl, ih _ 0⟩
          · exact Or.inl ⟨rfl, ih _ 0⟩

/-- Lexicographic comparisons on `(main_num, sub_num)` chain transitively. -/
lemma keyLe_trans : ∀ a b c : VokabelEintrag, keyLe a b → keyLe b c → keyLe a c := by
  intro a b c hab hbc
  simp only [keyLe, Bool.or_eq_true, Bool.and_eq_true, decide_eq_true_eq,
    beq_iff_eq] at *
  omega

/-- Any two entries compare in at least one direction under the sort key. -/
lemma keyLe_total : ∀ a b : VokabelEintrag, keyLe a b || keyLe b a := by
  intro a b
  simp only [keyLe, Bool.or_eq_true, Bool.and_eq_true, decide_eq_true_eq,
    beq_iff_eq]
  omega

/-! ### The claims -/

/-- C1: in every page parse, each continuation entry carries the main number
of the most recently seen primary entry, with sub numbers increasing 1, 2, ...
within a run of continuations and resetting to 0 at each new primary line;
in particular after a primary line numbered 3, two digit-less lines yield the
sub numbers 1 and 2. -/
theorem c1_continuation_numbering :
    (∀ text : String, okFrom 0 0 (parse_text text)) ∧
    (parse_text "3μάλα\nἀνήρ\nψυχή").map (fun e => (e.main_num, e.sub_num)) =
      [(3, 0), (3, 1), (3, 2)] := by
  constructor
  · intro text; exact parseGo_okFrom _ 0 0
  · decide

/-- C2: parsing the single line `1ὁ ἀνήρ τοῦ ἀνδρός` gives exactly one primary
entry with main number 1, sub number 0, headword `ἀνήρ` (the leading article
is skipped) and raw middle text `ὁ ἀνήρ τοῦ ἀνδρός`. -/
theorem c2_single_line :
    parse_text "1ὁ ἀνήρ τοῦ ἀνδρός" =
      [{ main_num := 1, sub_num := 0, griechisch := "ἀνήρ",
         stammformen := "ὁ ἀνήρ τοῦ ἀνδρός", bedeutungen := ["Mann"],
         gefunden := true, original_zeile := "1ὁ ἀνήρ τοῦ ἀνδρός" }] := by decide

/-- C3: for every key of the static dictionary (with its stored record),
resolution returns found = true, the semicolon-split trimmed glosses of the
stored gloss text, and the principal parts joined with the note. -/
theorem c3_exact_match (k g s z : String)
    (h : lookupVocab k = some (g, s, z)) :
    finde_bedeutung k = (some (splitBedeutungen g), true, pyStrip (s ++ " " ++ z)) := by
  have hstrip : pyStrip k = k := by
    obtain ⟨e, he, hmap⟩ := Option.map_eq_some'.mp h
    have hk : e.1 = k := by simpa using List.find?_some he
    have hmem := List.mem_of_find?_eq_some he
    have hall := vocab_keys_stripped
    rw [List.all_eq_true] at hall
    have he1 := hall e hmem
    rw [hk] at he1
    simpa using he1
  simp only [finde_bedeutung, hstrip, h]

/-- Witness for C3 at the dictionary key `ζάω`. -/
theorem c3_exact_match_witness :
    lookupVocab "ζάω" = some ("leben", "ζάω, ζήσω, ἔζησα, ἔζηκα", "") ∧
    finde_bedeutung "ζάω" =
      (some (splitBedeutungen "leben"), true, pyStrip ("ζάω, ζήσω, ἔζησα, ἔζηκα" ++ " " ++ "")) :=
  ⟨by decide, c3_exact_match "ζάω" "leben" "ζάω, ζήσω, ἔζησα, ἔζηκα" "" (by decide)⟩

/-- C4 as stated is false: `βιόω` resolves with the same glosses as `ζάω`,
but its annotation does not contain the synonym-redirection marker, because
`βιόω` is itself a dictionary key and the exact-match tier fires first. -/
theorem c4_counterexample :
    (finde_bedeutung "βιόω").1 = (finde_bedeutung "ζάω").1 ∧
    containsChars "[Synonym zu".data (finde_bedeutung "βιόω").2.2.data = false := by
  decide

/-- C4 amended: `βιόω` resolves to the same gloss list as `ζάω` (both are
`leben`), but through the exact-match tier — `βιόω` is itself a dictionary
key — so its annotation is its own principal-parts string without any
synonym marker. -/
theorem c4_amended :
    (finde_bedeutung "βιόω").1 = (finde_bedeutung "ζάω").1 ∧
    finde_bedeutung "βιόω" = (some ["leben"], true, "βιόω, βιώσομαι, ἐβίων, βεβίωκα") ∧
    lookupVocab "βιόω" = some ("leben", "βιόω, βιώσομαι, ἐβίων, βεβίωκα", "") := by decide

/-- C5 as stated is false: a primary line whose residual text has no Greek
run still produces an entry (with empty headword), here for the line `5abc`. -/
theorem c5_counterexample :
    parse_text "5abc" =
      [{ main_num := 5, sub_num := 0, griechisch := "", stammformen := "abc",
         bedeutungen := [], gefunden := false, original_zeile := "5abc" }] := by decide

/-- C5 amended: every continuation line (no leading digit) with no Greek run
produces no entry, while every primary line with no Greek run in its residual
text does produce an entry, with empty headword, no glosses and
`gefunden = false`; the line `5abc` is a concrete instance. -/
theorem c5_amended :
    (∀ (m s : Nat) (line : String) (rest : List String),
        (pyStrip line).data.takeWhile Char.isDigit = [] →
        findallGreek (pyStrip line) = [] →
        parseGo m s (line :: rest) = parseGo m s rest) ∧
    (∀ (m s : Nat) (line : String) (rest : List String)
        (digits : List Char) (rest_text : String),
        digits = (pyStrip line).data.takeWhile Char.isDigit →
        digits ≠ [] →
        rest_text = pyStrip ⟨(pyStrip line).data.drop digits.length⟩ →
        findallGreek rest_text = [] →
        parseGo m s (line :: rest) =
          { main_num := natOfDigits digits, sub_num := 0, griechisch := "",
            stammformen := rest_text, bedeutungen := [], gefunden := false,
            original_zeile := pyStrip line } :: parseGo (natOfDigits digits) 0 rest) ∧
    parse_text "5abc" =
      [{ main_num := 5, sub_num := 0, griechisch := "", stammformen := "abc",
         bedeutungen := [], gefunden := false, original_zeile := "5abc" }] := by
  refine ⟨?_, ?_, by decide⟩
  · intro m s line rest hdig hgr
    simp only [parseGo, hdig, hgr, List.isEmpty_nil, if_true, ite_self]
  · intro m s line rest digits rest_text hdigits hne hrt hgr
    subst hdigits
    subst hrt
    have h1 : (pyStrip line).data.isEmpty = false := by
      cases hd : (pyStrip line).data with
      | nil => exact absurd (by rw [hd]; rfl) hne
      | cons a l => rfl
    have h2 : ((pyStrip line).data.takeWhile Char.isDigit).isEmpty = false := by
      cases hd : (pyStrip line).data.takeWhile Char.isDigit with
      | nil => exact absurd hd hne
      | cons a l => rfl
    simp [parseGo, h1, h2, hgr]

/-- Witness for C5 amended: the digit-less, Greek-less line `abc` is skipped,
and the primary line `5abc` with Greek-less residual text yields its entry. -/
theorem c5_amended_witness :
    ((pyStrip "abc").data.takeWhile Char.isDigit = [] ∧
     findallGreek (pyStrip "abc") = [] ∧
     parseGo 3 1 ["abc", "ψυχή"] = parseGo 3 1 ["ψυχή"]) ∧
    ((['5'] : List Char) = (pyStrip "5abc").data.takeWhile Char.isDigit ∧
     (['5'] : List Char) ≠ [] ∧
     "abc" = pyStrip ⟨(pyStrip "5abc").data.drop (['5'] : List Char).length⟩ ∧
     findallGreek "abc" = [] ∧
     parseGo 7 4 ["5abc"] =
       { main_num := natOfDigits ['5'], sub_num := 0, griechisch := "",
         stammformen := "abc", bedeutungen := [], gefunden := false,
         original_zeile := pyStrip "5abc" } :: parseGo (natOfDigits ['5']) 0 []) :=
  ⟨⟨by decide, by decide, c5_amended.1 3 1 "abc" ["ψυχή"] (by decide) (by decide)⟩,
   ⟨by decide, by decide, by decide, by decide,
    c5_amended.2.1 7 4 "5abc" [] ['5'] "abc" (by decide) (by decide) (by decide)
      (by decide)⟩⟩

/-- C6: a word matching none of the three tiers resolves to
`(none, false, "")`, and resolution is total — every input yields either a
found result or exactly this sentinel (nothing is ever thrown). -/
theorem c6_unmatched_lookup :
    (∀ w : String,
        lookupVocab (pyStrip w) = none →
        (∀ hf : String, synLookup (pyStrip w) = some hf → lookupVocab hf = none) →
        vocab_dict.find?
          (fun e => remove_accents e.1 == remove_accents (pyStrip w)) = none →
        finde_bedeutung w = (none, false, "")) ∧
    (∀ w : String,
        finde_bedeutung w = (none, false, "") ∨
        ∃ l a, finde_bedeutung w = (some l, true, a)) := by
  constructor
  · intro w h1 h2 h3
    simp only [finde_bedeutung, h1]
    cases hsyn : synLookup (pyStrip w) with
    | none => simp only [fuzzyScan, h3]
    | some hf => simp only [h2 hf hsyn, fuzzyScan, h3]
  · intro w
    simp only [finde_bedeutung]
    cases h1 : lookupVocab (pyStrip w) with
    | some r =>
        obtain ⟨b, st, z⟩ := r
        right; exact ⟨_, _, rfl⟩
    | none =>
        cases h2 : synLookup (pyStrip w) with
        | none => exact fuzzyScan_shape _
        | some hfm =>
            dsimp only
            cases h3 : lookupVocab hfm with
            | some r =>
                obtain ⟨b, st, z⟩ := r
                right; exact ⟨_, _, rfl⟩
            | none => exact fuzzyScan_shape _

/-- Witness for C6 at `ξξξξ`: no tier matches and the sentinel is returned. -/
theorem c6_unmatched_lookup_witness :
    lookupVocab (pyStrip "ξξξξ") = none ∧
    synLookup (pyStrip "ξξξξ") = none ∧
    finde_bedeutung "ξξξξ" = (none, false, "") := by
  refine ⟨by decide, by decide, c6_unmatched_lookup.1 "ξξξξ" (by decide) ?_ (by decide)⟩
  intro hf hh
  rw [show synLookup (pyStrip "ξξξξ") = none from by decide] at hh
  cases hh

/-- C7: the accent-less query `ανθρωπος` is neither a dictionary key nor a
synonym key, yet resolves through the folded scan to the glosses of
`ἄνθρωπος`, namely `["Mensch"]`. -/
theorem c7_fold_fallback :
    lookupVocab "ανθρωπος" = none ∧ synLookup "ανθρωπος" = none ∧
    finde_bedeutung "ανθρωπος" = (some ["Mensch"], true, "ἄνθρωπος, ου, ὁ") ∧
    (finde_bedeutung "ανθρωπος").1 = (finde_bedeutung "ἄνθρωπος").1 := by decide

/-- C8 as stated is false: the synonym value `ἔσθω` (target of `ἐσθίω`) is
not a key of the dictionary. -/
theorem c8_counterexample :
    ("ἐσθίω", "ἔσθω") ∈ synonyme ∧ lookupVocab "ἔσθω" = none := by decide

/-- C8 amended: all synonym values except `ἔσθω`, `γαῖα`, `θάλασσα` and
`πλέων` are dictionary keys; those four are not, and when a synonym
redirect hits a missing target the lookup falls through to the folded scan
instead of returning at the exact-match step. -/
theorem c8_amended :
    synonyme.all (fun p =>
        (lookupVocab p.2).isSome ||
        ["ἔσθω", "γαῖα", "θάλασσα", "πλέων"].contains p.2) = true ∧
    (["ἔσθω", "γαῖα", "θάλασσα", "πλέων"].all
        (fun v => (lookupVocab v).isNone)) = true ∧
    (∀ w hf : String, lookupVocab (pyStrip w) = none →
        synLookup (pyStrip w) = some hf → lookupVocab hf = none →
        finde_bedeutung w = fuzzyScan (pyStrip w)) := by
  refine ⟨by decide, by decide, ?_⟩
  intro w hf h1 h2 h3
  simp only [finde_bedeutung, h1, h2, h3]

/-- Witness for C8 amended at `πλείων`, whose synonym target `πλέων` is
missing from the dictionary. -/
theorem c8_amended_witness :
    lookupVocab (pyStrip "πλείων") = none ∧
    synLookup (pyStrip "πλείων") = some "πλέων" ∧
    lookupVocab "πλέων" = none ∧
    finde_bedeutung "πλείων" = fuzzyScan (pyStrip "πλείων") :=
  ⟨by decide, by decide, by decide,
   c8_amended.2.2 "πλείων" "πλέων" (by decide) (by decide) (by decide)⟩

/-- C9: the final stabilising sort of `parse_pdf` leaves a sequence that is
already ordered by `(main_num, sub_num)` unchanged, and sorting twice equals
sorting once. -/
theorem c9_sort_stable_idempotent :
    (∀ l : List VokabelEintrag,
        l.Pairwise (fun a b => keyLe a b = true) → sortEintraege l = l) ∧
    (∀ l : List VokabelEintrag, sortEintraege (sortEintraege l) = sortEintraege l) := by
  constructor
  · intro l h
    exact List.mergeSort_of_sorted h
  · intro l
    exact List.mergeSort_of_sorted (List.sorted_mergeSort keyLe_trans keyLe_total l)

/-- Witness for C9 on a concrete ordered two-entry sequence. -/
theorem c9_sort_witness :
    ([⟨1, 0, "", "", [], false, ""⟩, ⟨2, 0, "", "", [], false, ""⟩] :
        List VokabelEintrag).Pairwise (fun a b => keyLe a b = true) ∧
    sortEintraege [⟨1, 0, "", "", [], false, ""⟩, ⟨2, 0, "", "", [], false, ""⟩] =
      [⟨1, 0, "", "", [], false, ""⟩, ⟨2, 0, "", "", [], false, ""⟩] :=
  ⟨by decide, c9_sort_stable_idempotent.1 _ (by decide)⟩

/-- C10: resolution reports found = true exactly when it returns a non-empty
gloss list; an unfound word carries no gloss list at all. -/
theorem c10_found_iff_glosses (w : String) :
    (finde_bedeutung w).2.1 = true ↔
      ∃ l, (finde_bedeutung w).1 = some l ∧ l ≠ [] := by
  simp only [finde_bedeutung]
  cases h1 : lookupVocab (pyStrip w) with
  | some r =>
      obtain ⟨b, st, z⟩ := r
      exact ⟨fun _ => ⟨_, rfl, splitBedeutungen_ne_nil b⟩, fun _ => rfl⟩
  | none =>
      cases h2 : synLookup (pyStrip w) with
      | none => exact fuzzyScan_found_iff _
      | some hfm =>
          dsimp only
          cases h3 : lookupVocab hfm with
          | some r =>
              obtain ⟨b, st, z⟩ := r
              exact ⟨fun _ => ⟨_, rfl, splitBedeutungen_ne_nil b⟩, fun _ => rfl⟩
          | none => exact fuzzyScan_found_iff _

end Vorentlastung
